import Mathlib

/-!
Shallow embedding of the multi-tenant quiz data layer of this repository:
the local relational store in src/components/databaseServiceFixed.ts
(class LocalDatabaseService) and the tenant-scoping adapter in
src/components/dataServiceNew.ts (class DataServiceAdapter).

Modelling conventions:
- JS objects used as keyed tables are modelled as lists of records in
  insertion order (string keys in JS objects preserve insertion order);
  keyed read is find-first, keyed insert replaces in place or appends,
  keyed delete filters the key out.
- Every call to new Date().toISOString() inside one synchronous store
  operation is modelled by one explicit timestamp parameter, and every
  generated id by an explicit id parameter.
- JSON.stringify / JSON.parse on the embedded _json fields round-trip,
  so those fields store the structured value directly.
- Date comparisons in sort callbacks compare ISO-8601 timestamp strings;
  for the fixed toISOString format, lexicographic order on the string
  agrees with numeric order of getTime, and the theorems below only use
  that the sort is a permutation.
- The MySQL branch of the adapter is the simulated stub and is disabled
  (shouldUseMySQL is false unless the stub reports a healthy connection,
  which the stub never persists); only the localStorage store path is
  modelled, as in the specification scope.
-/

namespace QuizApp

set_option maxRecDepth 8000

inductive TenantStatus
  | pending
  | approved
  | rejected
deriving DecidableEq, Repr

inductive UserStatus
  | active
  | pending
  | suspended
deriving DecidableEq, Repr

inductive Role
  | productAdmin
  | admin
  | user
deriving DecidableEq, Repr

inductive ChoiceType
  | radio
  | multiplechoice
deriving DecidableEq, Repr

/-- correct_answer is a single string for radio, a list for multiplechoice. -/
inductive CorrectAnswer
  | single (s : String)
  | multi (l : List String)
deriving DecidableEq, Repr

structure TenantSettings where
  allowUserRegistration : Bool
  maxAdmins : Int
  maxUsers : Int
  maxQuizzes : Int
deriving DecidableEq, Repr

/-- Default tenant settings object built by DataServiceAdapter.createTenant. -/
def defaultTenantSettings : TenantSettings :=
  { allowUserRegistration := true, maxAdmins := 5, maxUsers := 100, maxQuizzes := 50 }

structure TenantRecord where
  id : String
  name : String
  description : String
  domain : Option String
  status : TenantStatus
  is_active : Bool
  created_by : String
  created_at : String
  updated_at : String
  approved_by : Option String
  approved_at : Option String
  rejection_reason : Option String
  settings_json : TenantSettings
deriving DecidableEq, Repr

structure UserRecord where
  id : String
  name : String
  email : String
  password_hash : String
  role : Role
  tenant_id : Option String
  status : UserStatus
  created_at : String
deriving DecidableEq, Repr

structure QuizSetRecord where
  id : String
  name : String
  description : String
  is_published : Bool
  tenant_id : Option String
  created_by : String
  created_at : String
  updated_at : String
deriving DecidableEq, Repr

structure QuizQuestionRecord where
  id : String
  quiz_set_id : String
  image_url : String
  image_desc : String
  question : String
  choice_type : ChoiceType
  options_json : List String
  correct_answer_json : CorrectAnswer
  order_index : Nat
deriving DecidableEq, Repr

structure UserAttemptRecord where
  id : String
  user_id : String
  tenant_id : Option String
  quiz_set_id : String
  score : Int
  total_questions : Int
  percentage : Int
  time_remaining : Int
  time_taken : Int
  completed_at : String
  quiz_type : String
deriving DecidableEq, Repr

structure AttemptAnswerRecord where
  id : String
  attempt_id : String
  question_id : String
  user_answer_json : List String
  is_correct : Bool
deriving DecidableEq, Repr

structure UserSessionRecord where
  id : String
  user_id : String
deriving DecidableEq, Repr

structure MetadataRecord where
  version : String
  last_updated : String
deriving DecidableEq, Repr

/-- The DatabaseSchema interface: all tables of the store.
    The metadata table is keyed by an explicit string key (the store only
    ever uses the key "main"). -/
structure DB where
  tenants : List TenantRecord
  users : List UserRecord
  quiz_sets : List QuizSetRecord
  quiz_questions : List QuizQuestionRecord
  user_attempts : List UserAttemptRecord
  attempt_answers : List AttemptAnswerRecord
  user_sessions : List UserSessionRecord
  metadata : List (String × MetadataRecord)
deriving DecidableEq, Repr

/-- Keyed read on a JS object table: obj[k]. -/
def lookupBy (key : α → String) (k : String) (l : List α) : Option α :=
  l.find? (fun x => key x = k)

/-- Keyed write on a JS object table: obj[key x] = x
    (replaces in place if the key exists, appends otherwise). -/
def upsertBy (key : α → String) (x : α) : List α → List α
  | [] => [x]
  | y :: ys => if key y = key x then x :: ys else y :: upsertBy key x ys

/-- Lexicographic order on char code sequences; models comparison of the
    getTime values of two ISO-8601 timestamp strings of the fixed
    toISOString format. -/
def charsLe : List Char → List Char → Bool
  | [], _ => true
  | _ :: _, [] => false
  | a :: as, b :: bs =>
    if a.toNat < b.toNat then true
    else if b.toNat < a.toNat then false
    else charsLe as bs

def strLe (a b : String) : Bool := charsLe a.data b.data

/-- ToInt32 conversion applied by JS bitwise operators (hash & hash, hash << 5). -/
def toInt32 (n : Int) : Int := (n + 2 ^ 31) % 2 ^ 32 - 2 ^ 31

/-- One iteration of the hash loop: hash = ((hash << 5) - hash) + char; hash = hash & hash. -/
def hashStep (hash : Int) (c : Nat) : Int := toInt32 (toInt32 (hash * 32) - hash + c)

/-- Digit character of Number.prototype.toString(36): 0-9 then a-z. -/
def base36Char (n : Nat) : Char :=
  if n < 10 then Char.ofNat (48 + n) else Char.ofNat (87 + n)

def natToBase36Go : Nat → Nat → List Char → List Char
  | 0, n, acc => base36Char n :: acc
  | fuel + 1, n, acc =>
    if n < 36 then base36Char n :: acc
    else natToBase36Go fuel (n / 36) (base36Char (n % 36) :: acc)

/-- Math.abs(hash).toString(36); the fuel argument bounds the digit count
    so the recursion is structural. -/
def natToBase36 (n : Nat) : String := String.mk (natToBase36Go n n [])

/-- LocalDatabaseService.hashPassword: the toy additive hash over
    password + salt, reduced to 32 bits each step, then abs and base 36. -/
def hashPassword (password : String) : String :=
  let combined := password ++ "awsquiz2024"
  natToBase36 ((combined.data.map Char.toNat).foldl hashStep 0).natAbs

/-- LocalDatabaseService.verifyPassword. -/
def verifyPassword (password hash : String) : Bool :=
  hashPassword password = hash

/-- DB_VERSION of the store. -/
def DB_VERSION : String := "2.2.0"

/-- LocalDatabaseService.saveDatabase: refreshes the metadata row under key
    "main" and serializes the whole graph (persistence itself has no
    observable effect on the in-memory state beyond the metadata row). -/
def saveDatabase (db : DB) (now : String) : DB :=
  { db with
    metadata :=
      upsertBy (fun p => p.1) ("main", { version := DB_VERSION, last_updated := now }) db.metadata }

/-- LocalDatabaseService.createEmptyDatabase. -/
def createEmptyDatabase (now : String) : DB :=
  { tenants := []
    users := []
    quiz_sets := []
    quiz_questions := []
    user_attempts := []
    attempt_answers := []
    user_sessions := []
    metadata := [("main", { version := DB_VERSION, last_updated := now })] }

/-! View types from src/components/types.ts, as returned to calling code. -/

structure Tenant where
  id : String
  name : String
  description : String
  domain : Option String
  status : TenantStatus
  isActive : Bool
  createdBy : String
  createdAt : String
  updatedAt : String
  approvedBy : Option String
  approvedAt : Option String
  rejectionReason : Option String
  settings : TenantSettings
deriving DecidableEq, Repr

structure User where
  id : String
  name : String
  email : String
  role : Role
  tenantId : Option String
  status : UserStatus
  createdAt : String
deriving DecidableEq, Repr

structure QuizQuestion where
  imageurl : String
  imagedesc : String
  question : String
  choice_type : ChoiceType
  options : List String
  correct_answer : CorrectAnswer
deriving DecidableEq, Repr

structure QuizSet where
  id : String
  name : String
  description : String
  questions : List QuizQuestion
  isPublished : Bool
  tenantId : Option String
  createdBy : String
  createdAt : String
  updatedAt : String
deriving DecidableEq, Repr

structure AnswerDetail where
  questionIndex : Nat
  question : String
  selectedAnswers : List String
  correctAnswers : List String
  isCorrect : Bool
deriving DecidableEq, Repr

structure TestResult where
  id : String
  userId : String
  tenantId : Option String
  userName : String
  userEmail : String
  score : Int
  totalQuestions : Int
  percentage : Int
  timeRemaining : Int
  timeTaken : Int
  completedAt : String
  quizType : String
  questionsUsed : List QuizQuestion
  answers : List AnswerDetail
deriving DecidableEq, Repr

/-- Partial update object accepted by updateTenant (Partial of Tenant);
    a field set to none was not supplied by the caller. -/
structure TenantUpdates where
  name : Option String := none
  description : Option String := none
  domain : Option String := none
  isActive : Option Bool := none
  settings : Option TenantSettings := none
  updatedAt : Option String := none
  status : Option TenantStatus := none
  approvedBy : Option String := none
  approvedAt : Option String := none
  rejectionReason : Option String := none
deriving DecidableEq, Repr

/-- Input of saveTestResult: Omit of TestResult on id, plus an optional
    quizSetId. -/
structure TestResultInput where
  userId : String
  tenantId : Option String
  userName : String
  userEmail : String
  score : Int
  totalQuestions : Int
  percentage : Int
  timeRemaining : Int
  timeTaken : Int
  completedAt : String
  quizType : String
  questionsUsed : List QuizQuestion
  answers : List AnswerDetail
  quizSetId : Option String
deriving DecidableEq, Repr

def tenantView (r : TenantRecord) : Tenant :=
  { id := r.id
    name := r.name
    description := r.description
    domain := r.domain
    status := r.status
    isActive := r.is_active
    createdBy := r.created_by
    createdAt := r.created_at
    updatedAt := r.updated_at
    approvedBy := r.approved_by
    approvedAt := r.approved_at
    rejectionReason := r.rejection_reason
    settings := r.settings_json }

def tenantToRecord (t : Tenant) : TenantRecord :=
  { id := t.id
    name := t.name
    description := t.description
    domain := t.domain
    status := t.status
    is_active := t.isActive
    created_by := t.createdBy
    created_at := t.createdAt
    updated_at := t.updatedAt
    approved_by := t.approvedBy
    approved_at := t.approvedAt
    rejection_reason := t.rejectionReason
    settings_json := t.settings }

def userView (r : UserRecord) : User :=
  { id := r.id
    name := r.name
    email := r.email
    role := r.role
    tenantId := r.tenant_id
    status := r.status
    createdAt := r.created_at }

def questionView (r : QuizQuestionRecord) : QuizQuestion :=
  { imageurl := r.image_url
    imagedesc := r.image_desc
    question := r.question
    choice_type := r.choice_type
    options := r.options_json
    correct_answer := r.correct_answer_json }

namespace LocalDatabaseService

/-- LocalDatabaseService.createTenant: stores the record and returns the
    argument unchanged. -/
def createTenant (db : DB) (tenant : Tenant) (now : String) : DB × Tenant :=
  (saveDatabase { db with tenants := upsertBy TenantRecord.id (tenantToRecord tenant) db.tenants } now,
   tenant)

def optUpd (new : Option α) (old : α) : α :=
  match new with
  | some v => v
  | none => old

def optUpdOpt (new : Option α) (old : Option α) : Option α :=
  match new with
  | some v => some v
  | none => old

def applyTenantUpdates (u : TenantUpdates) (r : TenantRecord) : TenantRecord :=
  { r with
    name := optUpd u.name r.name
    description := optUpd u.description r.description
    domain := optUpdOpt u.domain r.domain
    is_active := optUpd u.isActive r.is_active
    settings_json := optUpd u.settings r.settings_json
    updated_at := optUpd u.updatedAt r.updated_at
    status := optUpd u.status r.status
    approved_by := optUpdOpt u.approvedBy r.approved_by
    approved_at := optUpdOpt u.approvedAt r.approved_at
    rejection_reason := optUpdOpt u.rejectionReason r.rejection_reason }

/-- LocalDatabaseService.getTenant. -/
def getTenant (db : DB) (id : String) : Option Tenant :=
  (lookupBy TenantRecord.id id db.tenants).map tenantView

/-- LocalDatabaseService.updateTenant: partial merge of the supplied fields
    into the stored record (in place, position preserved), then save. -/
def updateTenant (db : DB) (id : String) (u : TenantUpdates) (now : String) :
    DB × Option Tenant :=
  match lookupBy TenantRecord.id id db.tenants with
  | none => (db, none)
  | some _ =>
    let db1 := saveDatabase
      { db with
        tenants := db.tenants.map (fun r => if r.id = id then applyTenantUpdates u r else r) }
      now
    (db1, getTenant db1 id)

/-- LocalDatabaseService.deleteTenant: unconditional single-row delete. -/
def deleteTenant (db : DB) (id : String) (now : String) : DB × Bool :=
  match lookupBy TenantRecord.id id db.tenants with
  | none => (db, false)
  | some _ =>
    (saveDatabase { db with tenants := db.tenants.filter (fun r => ¬ r.id = id) } now, true)

/-- Sort callback of getTenants: descending by updated_at. -/
def tenantUpdatedDesc (a b : TenantRecord) : Bool := strLe b.updated_at a.updated_at

/-- LocalDatabaseService.getTenants. -/
def getTenants (db : DB) : List Tenant :=
  (db.tenants.mergeSort tenantUpdatedDesc).map tenantView

/-- LocalDatabaseService.createUser: global duplicate-email check
    (case-sensitive), then insert with status active. -/
def createUser (db : DB) (name email password : String) (role : Role)
    (tenantId : Option String) (userId createdAt : String) : Except String (DB × User) :=
  if (db.users.find? (fun u => u.email = email)).isSome then
    Except.error "User with this email already exists"
  else
    let record : UserRecord :=
      { id := userId
        name := name
        email := email
        password_hash := hashPassword password
        role := role
        tenant_id := tenantId
        status := UserStatus.active
        created_at := createdAt }
    Except.ok
      (saveDatabase { db with users := upsertBy UserRecord.id record db.users } createdAt,
       { id := userId, name := name, email := email, role := role, tenantId := tenantId,
         status := UserStatus.active, createdAt := createdAt })

/-- LocalDatabaseService.createUserWithStatus. -/
def createUserWithStatus (db : DB) (user : User) (password : String) (now : String) :
    Except String (DB × User) :=
  if (db.users.find? (fun u => u.email = user.email)).isSome then
    Except.error "User with this email already exists"
  else
    let record : UserRecord :=
      { id := user.id
        name := user.name
        email := user.email
        password_hash := hashPassword password
        role := user.role
        tenant_id := user.tenantId
        status := user.status
        created_at := user.createdAt }
    Except.ok (saveDatabase { db with users := upsertBy UserRecord.id record db.users } now, user)

/-- LocalDatabaseService.loginUser: find-first by exact email, verify the
    digest, and on success replace the whole session table with one row. -/
def loginUser (db : DB) (email password : String) (sessionId now : String) :
    DB × Option User :=
  match db.users.find? (fun u => u.email = email) with
  | some userRecord =>
    if verifyPassword password userRecord.password_hash then
      (saveDatabase
        { db with user_sessions := [{ id := sessionId, user_id := userRecord.id }] } now,
       some (userView userRecord))
    else (db, none)
  | none => (db, none)

/-- LocalDatabaseService.logoutUser. -/
def logoutUser (db : DB) (now : String) : DB :=
  saveDatabase { db with user_sessions := [] } now

/-- LocalDatabaseService.getCurrentUser: first session row, resolved against
    the users table. -/
def getCurrentUser (db : DB) : Option User :=
  match db.user_sessions.head? with
  | some session => (lookupBy UserRecord.id session.user_id db.users).map userView
  | none => none

/-- Sort callback of getUsers: descending by created_at. -/
def userCreatedDesc (a b : UserRecord) : Bool := strLe b.created_at a.created_at

/-- LocalDatabaseService.getUsers. -/
def getUsers (db : DB) : List User :=
  (db.users.mergeSort userCreatedDesc).map userView

/-- LocalDatabaseService.updateUserStatus: in-place status write on the
    record stored under the given id. JS object keys are unique, so the
    keyed write is modelled as a map over the list. -/
def updateUserStatus (db : DB) (userId : String) (status : UserStatus) (now : String) :
    DB × Bool :=
  match lookupBy UserRecord.id userId db.users with
  | none => (db, false)
  | some _ =>
    (saveDatabase
      { db with
        users := db.users.map (fun r => if r.id = userId then { r with status := status } else r) }
      now,
     true)

/-- LocalDatabaseService.deleteQuizSet: early false when the id is unknown,
    else cascade delete of the question rows, then the quiz set row. -/
def deleteQuizSet (db : DB) (id : String) (now : String) : DB × Bool :=
  match lookupBy QuizSetRecord.id id db.quiz_sets with
  | none => (db, false)
  | some _ =>
    (saveDatabase
      { db with
        quiz_questions := db.quiz_questions.filter (fun q => ¬ q.quiz_set_id = id)
        quiz_sets := db.quiz_sets.filter (fun s => ¬ s.id = id) }
      now,
     true)

/-- Sort callback on question rows: ascending by order_index. -/
def questionOrderAsc (a b : QuizQuestionRecord) : Bool := a.order_index ≤ b.order_index

/-- LocalDatabaseService.getQuizSetById: record plus its question rows in
    order_index order. -/
def getQuizSetById (db : DB) (id : String) : Option QuizSet :=
  match lookupBy QuizSetRecord.id id db.quiz_sets with
  | none => none
  | some quizRecord =>
    let questionRecords :=
      (db.quiz_questions.filter (fun q => q.quiz_set_id = id)).mergeSort questionOrderAsc
    some
      { id := quizRecord.id
        name := quizRecord.name
        description := quizRecord.description
        questions := questionRecords.map questionView
        isPublished := quizRecord.is_published
        tenantId := quizRecord.tenant_id
        createdBy := quizRecord.created_by
        createdAt := quizRecord.created_at
        updatedAt := quizRecord.updated_at }

/-- Sort callback of getQuizSets and getPublishedQuizzes: descending by
    updated_at. -/
def quizUpdatedDesc (a b : QuizSetRecord) : Bool := strLe b.updated_at a.updated_at

/-- LocalDatabaseService.getQuizSets: sorted records, each resolved through
    getQuizSetById (filter Boolean keeps the non-null results). -/
def getQuizSets (db : DB) : List QuizSet :=
  (db.quiz_sets.mergeSort quizUpdatedDesc).filterMap (fun r => getQuizSetById db r.id)

/-- LocalDatabaseService.getPublishedQuizzes. -/
def getPublishedQuizzes (db : DB) : List QuizSet :=
  ((db.quiz_sets.filter (fun r => r.is_published)).mergeSort quizUpdatedDesc).filterMap
    (fun r => getQuizSetById db r.id)

/-- Quiz-set attribution of saveTestResult: a truthy (non-empty) caller
    supplied id wins; else a default-type attempt resolves to the first
    published quiz set in table iteration order; else the literal string
    default. -/
def resolveQuizSetId (db : DB) (quizSetId : Option String) (quizType : String) : String :=
  let fallback :=
    if quizType = "default" then
      match (db.quiz_sets.filter (fun q => q.is_published)).head? with
      | some q => q.id
      | none => "default"
    else "default"
  match quizSetId with
  | some s => if s = "" then fallback else s
  | none => fallback

/-- The UserAttempt row inserted by saveTestResult. -/
def newAttemptRecord (db : DB) (result : TestResultInput) (attemptId : String) :
    UserAttemptRecord :=
  { id := attemptId
    user_id := result.userId
    tenant_id := result.tenantId
    quiz_set_id := resolveQuizSetId db result.quizSetId result.quizType
    score := result.score
    total_questions := result.totalQuestions
    percentage := result.percentage
    time_remaining := result.timeRemaining
    time_taken := result.timeTaken
    completed_at := result.completedAt
    quiz_type := if result.quizType = "" then "default" else result.quizType }

/-- LocalDatabaseService.saveTestResult. -/
def saveTestResult (db : DB) (result : TestResultInput) (attemptId now : String) :
    DB × TestResult :=
  let record := newAttemptRecord db result attemptId
  (saveDatabase { db with user_attempts := upsertBy UserAttemptRecord.id record db.user_attempts } now,
   { id := attemptId
     userId := result.userId
     tenantId := result.tenantId
     userName := result.userName
     userEmail := result.userEmail
     score := result.score
     totalQuestions := result.totalQuestions
     percentage := result.percentage
     timeRemaining := result.timeRemaining
     timeTaken := result.timeTaken
     completedAt := result.completedAt
     quizType := if result.quizType = "" then "default" else result.quizType
     questionsUsed := result.questionsUsed
     answers := result.answers })

/-- View building of getTestResults rows: user name and email resolved with
    fallbacks, questionsUsed and answers always empty. -/
def attemptToResult (db : DB) (record : UserAttemptRecord) : TestResult :=
  let userRecord := lookupBy UserRecord.id record.user_id db.users
  { id := record.id
    userId := record.user_id
    tenantId := record.tenant_id
    userName :=
      match userRecord with
      | some u => u.name
      | none => "Unknown User"
    userEmail :=
      match userRecord with
      | some u => u.email
      | none => "unknown@example.com"
    score := record.score
    totalQuestions := record.total_questions
    percentage := record.percentage
    timeRemaining := record.time_remaining
    timeTaken := record.time_taken
    completedAt := record.completed_at
    quizType := record.quiz_type
    questionsUsed := []
    answers := [] }

/-- Sort callback on attempts: descending by completed_at. -/
def attemptCompletedDesc (a b : UserAttemptRecord) : Bool := strLe b.completed_at a.completed_at

/-- LocalDatabaseService.getTestResults. -/
def getTestResults (db : DB) : List TestResult :=
  (db.user_attempts.mergeSort attemptCompletedDesc).map (attemptToResult db)

/-- LocalDatabaseService.deleteTestResult. -/
def deleteTestResult (db : DB) (id : String) (now : String) : DB × Bool :=
  match lookupBy UserAttemptRecord.id id db.user_attempts with
  | none => (db, false)
  | some _ =>
    (saveDatabase { db with user_attempts := db.user_attempts.filter (fun a => ¬ a.id = id) } now,
     true)

/-- LocalDatabaseService.getUserBestScoreForQuiz: Math.max over the matching
    attempts, null when there are none. -/
def getUserBestScoreForQuiz (db : DB) (userId quizSetId : String) : Option Int :=
  let userAttempts :=
    db.user_attempts.filter (fun a => a.user_id = userId ∧ a.quiz_set_id = quizSetId)
  match userAttempts with
  | [] => none
  | a :: rest => some (rest.foldl (fun m x => max m x.percentage) a.percentage)

/-- Parsed shape of the exported JSON blob: each top-level table key may be
    absent. JSON round-trips the table contents. -/
structure ExportBlob where
  tenants : Option (List TenantRecord)
  users : Option (List UserRecord)
  quiz_sets : Option (List QuizSetRecord)
  quiz_questions : Option (List QuizQuestionRecord)
  user_attempts : Option (List UserAttemptRecord)
  attempt_answers : Option (List AttemptAnswerRecord)
  user_sessions : Option (List UserSessionRecord)
  metadata : Option (List (String × MetadataRecord))
deriving DecidableEq, Repr

/-- LocalDatabaseService.exportDatabase: JSON.stringify of the whole graph;
    every table key is present in the output. -/
def exportDatabase (db : DB) : ExportBlob :=
  { tenants := some db.tenants
    users := some db.users
    quiz_sets := some db.quiz_sets
    quiz_questions := some db.quiz_questions
    user_attempts := some db.user_attempts
    attempt_answers := some db.attempt_answers
    user_sessions := some db.user_sessions
    metadata := some db.metadata }

/-- LocalDatabaseService.importDatabase: shallow key-presence check on
    metadata, users and tenants, then full in-memory replace and save.
    A table key absent from a shape-valid blob would be undefined in JS and
    fault on first access; the empty default below is never exercised by
    the round-trip theorem, whose blobs carry every key. -/
def importDatabase (db : DB) (blob : ExportBlob) (now : String) : DB × Bool :=
  if blob.metadata.isNone ∨ blob.users.isNone ∨ blob.tenants.isNone then (db, false)
  else
    (saveDatabase
      { tenants := blob.tenants.getD []
        users := blob.users.getD []
        quiz_sets := blob.quiz_sets.getD []
        quiz_questions := blob.quiz_questions.getD []
        user_attempts := blob.user_attempts.getD []
        attempt_answers := blob.attempt_answers.getD []
        user_sessions := blob.user_sessions.getD []
        metadata := blob.metadata.getD [] }
      now,
     true)

end LocalDatabaseService

namespace DataServiceAdapter

/-- Truthiness of an optional string parameter in JS: undefined and the
    empty string are falsy. -/
def truthy (s : Option String) : Bool :=
  match s with
  | some v => ¬ v = ""
  | none => false

/-- DataServiceAdapter.createTenant: builds the Tenant object (isActive
    mirrors an approved status, default settings) and stores it. -/
def createTenant (db : DB) (name description createdBy : String) (status : TenantStatus)
    (id now : String) : DB × Tenant :=
  LocalDatabaseService.createTenant db
    { id := id
      name := name
      description := description
      domain := none
      status := status
      isActive := status = TenantStatus.approved
      createdBy := createdBy
      createdAt := now
      updatedAt := now
      approvedBy := none
      approvedAt := none
      rejectionReason := none
      settings := defaultTenantSettings }
    now

/-- DataServiceAdapter.updateTenant: forwards to the store with updatedAt
    stamped in. -/
def updateTenant (db : DB) (id : String) (updates : TenantUpdates) (now : String) :
    DB × Option Tenant :=
  LocalDatabaseService.updateTenant db id { updates with updatedAt := some now } now

/-- DataServiceAdapter.getUsersByTenant. -/
def getUsersByTenant (db : DB) (tenantId : String) : List User :=
  (LocalDatabaseService.getUsers db).filter (fun user => user.tenantId = some tenantId)

/-- DataServiceAdapter.getQuizSets: optional tenant filter (skipped when the
    tenant id parameter is falsy). -/
def getQuizSets (db : DB) (tenantId : Option String) : List QuizSet :=
  let allQuizSets := LocalDatabaseService.getQuizSets db
  if truthy tenantId then
    allQuizSets.filter (fun quiz => quiz.tenantId = tenantId)
  else allQuizSets

/-- DataServiceAdapter.getQuizSetsByTenant. -/
def getQuizSetsByTenant (db : DB) (tenantId : String) : List QuizSet :=
  getQuizSets db (some tenantId)

/-- DataServiceAdapter.getTestResults: optional tenant filter (skipped when
    the tenant id parameter is falsy). -/
def getTestResults (db : DB) (tenantId : Option String) : List TestResult :=
  let allResults := LocalDatabaseService.getTestResults db
  if truthy tenantId then
    allResults.filter (fun result => result.tenantId = tenantId)
  else allResults

/-- DataServiceAdapter.getTestResultsByTenant. -/
def getTestResultsByTenant (db : DB) (tenantId : String) : List TestResult :=
  getTestResults db (some tenantId)

/-- First cascade step of DataServiceAdapter.deleteTenant: one
    deleteQuizSet call per quiz set of the tenant. -/
def deleteTenantQuizzesStep (db : DB) (id : String) (now : String) : DB :=
  (getQuizSetsByTenant db id).foldl
    (fun d quiz => (LocalDatabaseService.deleteQuizSet d quiz.id now).1) db

/-- Second cascade step of DataServiceAdapter.deleteTenant: the tenant test
    results are read after the quiz deletions and deleted one by one. -/
def deleteTenantResultsStep (db : DB) (id : String) (now : String) : DB :=
  (getTestResultsByTenant (deleteTenantQuizzesStep db id now) id).foldl
    (fun d result => (LocalDatabaseService.deleteTestResult d result.id now).1)
    (deleteTenantQuizzesStep db id now)

/-- DataServiceAdapter.deleteTenant: guarded by the tenant-has-users check
    (thrown before any mutation), then cascade delete of the tenant quiz
    sets, then of the tenant test results, then the tenant row. -/
def deleteTenant (db : DB) (id : String) (now : String) : Except String (DB × Bool) :=
  if (getUsersByTenant db id).length > 0 then
    Except.error "Cannot delete tenant with existing users. Please remove all users first."
  else
    Except.ok (LocalDatabaseService.deleteTenant (deleteTenantResultsStep db id now) id now)

/-- DataServiceAdapter.createUser: role and tenant validation (with JS
    truthiness on the tenant id), then the store insert. -/
def createUser (db : DB) (name email password : String) (role : Role)
    (tenantId : Option String) (userId now : String) : Except String (DB × User) :=
  if role = Role.productAdmin ∧ truthy tenantId then
    Except.error "Product admin cannot belong to a tenant"
  else if (role = Role.admin ∨ role = Role.user) ∧ ¬ truthy tenantId then
    Except.error "Admin and user roles must belong to a tenant"
  else
    LocalDatabaseService.createUser db name email password role tenantId userId now

/-- The forEach loop of approveTenant: every pending user of the tenant is
    switched to active, one keyed status write per user. -/
def activatePendingUsers (db : DB) (tenantId now : String) : DB :=
  (getUsersByTenant db tenantId).foldl
    (fun d user =>
      if user.status = UserStatus.pending then
        (LocalDatabaseService.updateUserStatus d user.id UserStatus.active now).1
      else d)
    db

/-- The partial-update object approveTenant passes to updateTenant, with
    the updatedAt stamp the adapter updateTenant adds. -/
def approveUpdates (approvedBy now : String) : TenantUpdates :=
  { status := some TenantStatus.approved
    isActive := some true
    approvedBy := some approvedBy
    approvedAt := some now
    updatedAt := some now }

/-- The partial-update object rejectTenant passes to updateTenant, with
    the updatedAt stamp the adapter updateTenant adds. -/
def rejectUpdates (rejectedBy reason now : String) : TenantUpdates :=
  { status := some TenantStatus.rejected
    isActive := some false
    approvedBy := some rejectedBy
    approvedAt := some now
    rejectionReason := some reason
    updatedAt := some now }

/-- DataServiceAdapter.approveTenant: not-found guard, unguarded status
    write to approved, then activation of every pending user of the
    tenant. -/
def approveTenant (db : DB) (tenantId approvedBy : String) (now : String) :
    Except String (DB × Bool) :=
  match LocalDatabaseService.getTenant db tenantId with
  | none => Except.error "Tenant not found"
  | some _ =>
    match (LocalDatabaseService.updateTenant db tenantId (approveUpdates approvedBy now) now).2 with
    | some _ =>
      Except.ok
        (activatePendingUsers
          (LocalDatabaseService.updateTenant db tenantId (approveUpdates approvedBy now) now).1
          tenantId now,
         true)
    | none =>
      Except.ok
        ((LocalDatabaseService.updateTenant db tenantId (approveUpdates approvedBy now) now).1,
         false)

/-- DataServiceAdapter.rejectTenant: not-found guard, then unguarded status
    write to rejected. -/
def rejectTenant (db : DB) (tenantId rejectedBy reason : String) (now : String) :
    Except String (DB × Bool) :=
  match LocalDatabaseService.getTenant db tenantId with
  | none => Except.error "Tenant not found"
  | some _ =>
    Except.ok
      ((LocalDatabaseService.updateTenant db tenantId
          (rejectUpdates rejectedBy reason now) now).1,
       (LocalDatabaseService.updateTenant db tenantId
          (rejectUpdates rejectedBy reason now) now).2.isSome)

/-- DataServiceAdapter.loginUser: store login, with the result suppressed
    (after the session write) for a pending user. -/
def loginUser (db : DB) (email password : String) (sessionId now : String) :
    DB × Option User :=
  let out := LocalDatabaseService.loginUser db email password sessionId now
  match out.2 with
  | some user => if user.status = UserStatus.pending then (out.1, none) else (out.1, some user)
  | none => (out.1, none)

end DataServiceAdapter

/-! Concrete store states and inputs used to exercise the theorems on
    explicit data. -/

/-- A small populated store: an approved tenant t1 with an active user and
    attempts, a pending tenant t2 with a pending admin, a rejected tenant
    t3, and a user-free tenant t4 that still owns a quiz set and an
    orphaned attempt. -/
def demoDB : DB :=
  { tenants :=
      [ { id := "t1", name := "Acme", description := "first tenant", domain := none,
          status := TenantStatus.approved, is_active := true, created_by := "system",
          created_at := "2024-01-01T00:00:00.000Z", updated_at := "2024-01-02T00:00:00.000Z",
          approved_by := some "u0", approved_at := some "2024-01-02T00:00:00.000Z",
          rejection_reason := none, settings_json := defaultTenantSettings },
        { id := "t2", name := "Beta", description := "pending tenant", domain := none,
          status := TenantStatus.pending, is_active := false, created_by := "bob@t2.example",
          created_at := "2024-01-03T00:00:00.000Z", updated_at := "2024-01-03T00:00:00.000Z",
          approved_by := none, approved_at := none, rejection_reason := none,
          settings_json := defaultTenantSettings },
        { id := "t3", name := "Gamma", description := "rejected tenant", domain := none,
          status := TenantStatus.rejected, is_active := false, created_by := "who@t3.example",
          created_at := "2024-01-04T00:00:00.000Z", updated_at := "2024-01-05T00:00:00.000Z",
          approved_by := some "u0", approved_at := some "2024-01-05T00:00:00.000Z",
          rejection_reason := some "not a business", settings_json := defaultTenantSettings },
        { id := "t4", name := "Delta", description := "user-free tenant", domain := none,
          status := TenantStatus.approved, is_active := true, created_by := "system",
          created_at := "2024-01-06T00:00:00.000Z", updated_at := "2024-01-06T00:00:00.000Z",
          approved_by := some "u0", approved_at := some "2024-01-06T00:00:00.000Z",
          rejection_reason := none, settings_json := defaultTenantSettings } ]
    users :=
      [ { id := "u0", name := "Product Administrator", email := "pa@example.com",
          password_hash := hashPassword "wel123", role := Role.productAdmin, tenant_id := none,
          status := UserStatus.active, created_at := "2024-01-01T00:00:00.000Z" },
        { id := "u1", name := "Alice", email := "alice@t1.example",
          password_hash := hashPassword "wel123", role := Role.user, tenant_id := some "t1",
          status := UserStatus.active, created_at := "2024-01-02T00:00:00.000Z" },
        { id := "u2", name := "Bob", email := "bob@t2.example",
          password_hash := hashPassword "wel123", role := Role.admin, tenant_id := some "t2",
          status := UserStatus.pending, created_at := "2024-01-03T00:00:00.000Z" } ]
    quiz_sets :=
      [ { id := "q1", name := "AWS Basics", description := "demo quiz", is_published := true,
          tenant_id := some "t1", created_by := "u1",
          created_at := "2024-01-05T00:00:00.000Z", updated_at := "2024-01-05T00:00:00.000Z" },
        { id := "q4", name := "Delta Quiz", description := "quiz of t4", is_published := false,
          tenant_id := some "t4", created_by := "system",
          created_at := "2024-01-06T00:00:00.000Z", updated_at := "2024-01-06T00:00:00.000Z" } ]
    quiz_questions :=
      [ { id := "qq1", quiz_set_id := "q1", image_url := "http://img/1",
          image_desc := "icon", question := "Is S3 object storage?",
          choice_type := ChoiceType.radio, options_json := ["True", "False"],
          correct_answer_json := CorrectAnswer.single "True", order_index := 0 },
        { id := "qq4", quiz_set_id := "q4", image_url := "http://img/4",
          image_desc := "icon", question := "Pick two",
          choice_type := ChoiceType.multiplechoice, options_json := ["A", "B", "C"],
          correct_answer_json := CorrectAnswer.multi ["A", "B"], order_index := 0 } ]
    user_attempts :=
      [ { id := "a1", user_id := "u1", tenant_id := some "t1", quiz_set_id := "q1",
          score := 4, total_questions := 5, percentage := 80, time_remaining := 10,
          time_taken := 20, completed_at := "2024-01-06T00:00:00.000Z", quiz_type := "custom" },
        { id := "a2", user_id := "u1", tenant_id := some "t1", quiz_set_id := "q1",
          score := 3, total_questions := 5, percentage := 60, time_remaining := 0,
          time_taken := 30, completed_at := "2024-01-07T00:00:00.000Z", quiz_type := "custom" },
        { id := "a4", user_id := "ghost", tenant_id := some "t4", quiz_set_id := "q4",
          score := 5, total_questions := 5, percentage := 100, time_remaining := 5,
          time_taken := 25, completed_at := "2024-01-08T00:00:00.000Z", quiz_type := "custom" } ]
    attempt_answers := []
    user_sessions := []
    metadata := [("main", { version := "2.2.0", last_updated := "2024-01-08T00:00:00.000Z" })] }

/-- Attempt submission whose caller-supplied quiz set id is the empty
    string: supplied, but falsy in JS. -/
def c9Input : TestResultInput :=
  { userId := "u1", tenantId := some "t1", userName := "Alice",
    userEmail := "alice@t1.example", score := 1, totalQuestions := 2, percentage := 50,
    timeRemaining := 0, timeTaken := 30, completedAt := "2024-01-09T00:00:00.000Z",
    quizType := "custom", questionsUsed := [], answers := [], quizSetId := some "" }

/-- Attempt submission of quiz type default with no caller-supplied quiz
    set id. -/
def c9DefaultInput : TestResultInput :=
  { userId := "u1", tenantId := some "t1", userName := "Alice",
    userEmail := "alice@t1.example", score := 2, totalQuestions := 2, percentage := 100,
    timeRemaining := 5, timeTaken := 25, completedAt := "2024-01-10T00:00:00.000Z",
    quizType := "default", questionsUsed := [], answers := [], quizSetId := none }

/-- Store state reached from the empty store by the admin-side createTenant
    of the adapter (status defaults to approved). -/
def c2Db1 : DB :=
  (DataServiceAdapter.createTenant (createEmptyDatabase "2024-03-01T00:00:00.000Z")
    "Acme" "demo tenant" "system" TenantStatus.approved "tx" "2024-03-01T00:00:01.000Z").1

/-! Helper lemmas about the keyed-table model. -/

theorem lookupBy_none_iff (key : α → String) (k : String) (l : List α) :
    lookupBy key k l = none ↔ ∀ x ∈ l, ¬ key x = k := by
  unfold lookupBy
  rw [List.find?_eq_none]
  simp

theorem lookupBy_upsert_self (key : α → String) (x : α) (l : List α) :
    lookupBy key (key x) (upsertBy key x l) = some x := by
  induction l with
  | nil => simp [upsertBy, lookupBy, List.find?]
  | cons y ys ih =>
    unfold upsertBy
    by_cases h : key y = key x
    · simp [lookupBy, List.find?, h]
    · simpa [lookupBy, List.find?, h] using ih

theorem key_inj_of_nodup (key : α → String) {l : List α}
    (hnd : (l.map key).Nodup) {x y : α} (hx : x ∈ l) (hy : y ∈ l)
    (hk : key x = key y) : x = y := by
  induction l with
  | nil => cases hx
  | cons z zs ih =>
    rw [List.map_cons, List.nodup_cons] at hnd
    rcases List.mem_cons.mp hx with hx1 | hx1 <;>
      rcases List.mem_cons.mp hy with hy1 | hy1
    · rw [hx1, hy1]
    · exfalso
      apply hnd.1
      rw [hx1] at hk
      rw [hk]
      exact List.mem_map_of_mem key hy1
    · exfalso
      apply hnd.1
      rw [hy1] at hk
      rw [← hk]
      exact List.mem_map_of_mem key hx1
    · exact ih hnd.2 hx1 hy1

theorem lookupBy_eq_of_mem (key : α → String) {l : List α}
    (hnd : (l.map key).Nodup) {x : α} (hx : x ∈ l) :
    lookupBy key (key x) l = some x := by
  induction l with
  | nil => cases hx
  | cons y ys ih =>
    unfold lookupBy
    by_cases h : key y = key x
    · have hyx : y = x := key_inj_of_nodup key hnd (List.mem_cons_self y ys) hx h
      simp [List.find?, h, hyx]
    · have hnd2 : (ys.map key).Nodup := by
        rw [List.map_cons, List.nodup_cons] at hnd
        exact hnd.2
      rcases List.mem_cons.mp hx with hx1 | hx1
      · exact absurd (congrArg key hx1.symm) h
      · simpa [List.find?, h] using ih hnd2 hx1

theorem lookupBy_map_presv (key : α → String) (f : α → α)
    (hf : ∀ a, key (f a) = key a) (k : String) (l : List α) :
    lookupBy key k (l.map f) = (lookupBy key k l).map f := by
  induction l with
  | nil => simp [lookupBy]
  | cons y ys ih =>
    unfold lookupBy at *
    by_cases h : key y = k
    · simp [List.find?, hf, h]
    · simpa [List.find?, hf, h] using ih

theorem filterMap_eq_map_of_some {f : α → Option β} {g : α → β} {l : List α}
    (h : ∀ a ∈ l, f a = some (g a)) : l.filterMap f = l.map g := by
  induction l with
  | nil => rfl
  | cons y ys ih =>
    rw [List.filterMap_cons, h y (List.mem_cons_self y ys),
        List.map_cons, ih (fun a ha => h a (List.mem_cons.mpr (Or.inr ha)))]

/-! C6: export followed by import restores every entity table and
    reports success. -/

/-- C6: importDatabase applied to exportDatabase output succeeds and leaves
    every entity table (tenants, users, quiz sets, quiz questions, attempts,
    attempt answers, sessions) observably identical; only the metadata row
    is re-stamped by the save. -/
theorem export_import_roundtrip (db : DB) (now : String) :
    (LocalDatabaseService.importDatabase db (LocalDatabaseService.exportDatabase db) now).2
        = true ∧
    (LocalDatabaseService.importDatabase db (LocalDatabaseService.exportDatabase db) now).1.tenants
        = db.tenants ∧
    (LocalDatabaseService.importDatabase db (LocalDatabaseService.exportDatabase db) now).1.users
        = db.users ∧
    (LocalDatabaseService.importDatabase db (LocalDatabaseService.exportDatabase db) now).1.quiz_sets
        = db.quiz_sets ∧
    (LocalDatabaseService.importDatabase db (LocalDatabaseService.exportDatabase db) now).1.quiz_questions
        = db.quiz_questions ∧
    (LocalDatabaseService.importDatabase db (LocalDatabaseService.exportDatabase db) now).1.user_attempts
        = db.user_attempts ∧
    (LocalDatabaseService.importDatabase db (LocalDatabaseService.exportDatabase db) now).1.attempt_answers
        = db.attempt_answers ∧
    (LocalDatabaseService.importDatabase db (LocalDatabaseService.exportDatabase db) now).1.user_sessions
        = db.user_sessions := by
  simp [LocalDatabaseService.importDatabase, LocalDatabaseService.exportDatabase, saveDatabase]

/-! C4: deleting a quiz set removes all of its question rows and the set
    row; an unknown id is a no-op returning false. -/

/-- C4: when deleteQuizSet returns true, no QuizQuestion row with the
    deleted quiz_set_id remains and the quiz set row is gone; when no quiz
    set has the id, it returns false and the state is unchanged. -/
theorem deleteQuizSet_spec (db : DB) (id now : String) :
    ((LocalDatabaseService.deleteQuizSet db id now).2 = true →
      (∀ q ∈ (LocalDatabaseService.deleteQuizSet db id now).1.quiz_questions,
        ¬ q.quiz_set_id = id) ∧
      lookupBy QuizSetRecord.id id (LocalDatabaseService.deleteQuizSet db id now).1.quiz_sets
        = none) ∧
    (lookupBy QuizSetRecord.id id db.quiz_sets = none →
      LocalDatabaseService.deleteQuizSet db id now = (db, false)) := by
  unfold LocalDatabaseService.deleteQuizSet
  cases hl : lookupBy QuizSetRecord.id id db.quiz_sets with
  | none => simp
  | some s =>
    refine ⟨fun _ => ⟨?_, ?_⟩, fun hnone => by simp at hnone⟩
    · intro q hq
      have hq2 : q ∈ db.quiz_questions ∧ ¬ q.quiz_set_id = id := by
        simpa [saveDatabase] using hq
      exact hq2.2
    · rw [lookupBy_none_iff]
      intro x hx
      have hx2 : x ∈ db.quiz_sets ∧ ¬ x.id = id := by
        simpa [saveDatabase] using hx
      exact hx2.2

/-- Witness for C4 on the demo store: deleting quiz set q1 succeeds, and
    afterwards no question row references q1 and the set row is gone. -/
theorem deleteQuizSet_spec_witness :
    (∀ q ∈ (LocalDatabaseService.deleteQuizSet demoDB "q1" "2024-02-01T00:00:00.000Z").1.quiz_questions,
      ¬ q.quiz_set_id = "q1") ∧
    lookupBy QuizSetRecord.id "q1"
      (LocalDatabaseService.deleteQuizSet demoDB "q1" "2024-02-01T00:00:00.000Z").1.quiz_sets
      = none :=
  (deleteQuizSet_spec demoDB "q1" "2024-02-01T00:00:00.000Z").1 (by decide)

/-! Helper lemmas about folded max, for the best-score query. -/

theorem le_foldl_max (l : List Int) (x : Int) : x ≤ l.foldl max x := by
  induction l generalizing x with
  | nil => exact le_refl x
  | cons a t ih =>
    rw [List.foldl_cons]
    exact le_trans (le_max_left x a) (ih (max x a))

theorem mem_le_foldl_max (l : List Int) (x : Int) : ∀ p ∈ l, p ≤ l.foldl max x := by
  induction l generalizing x with
  | nil => intro p hp; cases hp
  | cons a t ih =>
    intro p hp
    rw [List.foldl_cons]
    rcases List.mem_cons.mp hp with h | h
    · rw [h]
      exact le_trans (le_max_right x a) (le_foldl_max t (max x a))
    · exact ih (max x a) p h

theorem foldl_max_mem (l : List Int) (x : Int) : l.foldl max x = x ∨ l.foldl max x ∈ l := by
  induction l generalizing x with
  | nil => exact Or.inl rfl
  | cons a t ih =>
    rw [List.foldl_cons]
    rcases ih (max x a) with h | h
    · rcases max_choice x a with hm | hm
      · exact Or.inl (by rw [h, hm])
      · exact Or.inr (by rw [h, hm]; exact List.mem_cons_self a t)
    · exact Or.inr (List.mem_cons.mpr (Or.inr h))

/-! C7: the best-score query is the maximum percentage over the matching
    attempts, and null exactly when there are none. -/

/-- C7: getUserBestScoreForQuiz returns none exactly when no attempt row
    matches both the user id and the quiz set id, and any returned value is
    the percentage of some matching attempt and an upper bound of all
    matching attempt percentages. -/
theorem getUserBestScoreForQuiz_spec (db : DB) (u q : String) :
    (LocalDatabaseService.getUserBestScoreForQuiz db u q = none ↔
      db.user_attempts.filter (fun a => a.user_id = u ∧ a.quiz_set_id = q) = []) ∧
    (∀ m, LocalDatabaseService.getUserBestScoreForQuiz db u q = some m →
      (∃ a ∈ db.user_attempts.filter (fun a => a.user_id = u ∧ a.quiz_set_id = q),
        a.percentage = m) ∧
      (∀ a ∈ db.user_attempts.filter (fun a => a.user_id = u ∧ a.quiz_set_id = q),
        a.percentage ≤ m)) := by
  unfold LocalDatabaseService.getUserBestScoreForQuiz
  cases hA : db.user_attempts.filter (fun a => a.user_id = u ∧ a.quiz_set_id = q) with
  | nil => simp
  | cons a rest =>
    constructor
    · simp
    · intro m hm
      have hm2 : rest.foldl (fun acc x => max acc x.percentage) a.percentage = m := by
        simpa using hm
      have hmap : rest.foldl (fun acc x => max acc x.percentage) a.percentage
          = (rest.map UserAttemptRecord.percentage).foldl max a.percentage := by
        rw [List.foldl_map]
      constructor
      · rcases foldl_max_mem (rest.map UserAttemptRecord.percentage) a.percentage with h | h
        · exact ⟨a, List.mem_cons_self a rest, by rw [← hm2, hmap, h]⟩
        · rcases List.mem_map.mp h with ⟨a2, ha2, hpa⟩
          exact ⟨a2, List.mem_cons.mpr (Or.inr ha2), by rw [← hm2, hmap, hpa]⟩
      · intro a2 ha2
        rw [← hm2, hmap]
        rcases List.mem_cons.mp ha2 with h | h
        · rw [h]
          exact le_foldl_max (rest.map UserAttemptRecord.percentage) a.percentage
        · exact mem_le_foldl_max (rest.map UserAttemptRecord.percentage) a.percentage
            a2.percentage (List.mem_map_of_mem UserAttemptRecord.percentage h)

/-- Witness for C7 on the demo store: the best score of user u1 on quiz set
    q1 is 80, attained by a matching attempt and bounding all of them. -/
theorem getUserBestScoreForQuiz_spec_witness :
    (∃ a ∈ demoDB.user_attempts.filter (fun a => a.user_id = "u1" ∧ a.quiz_set_id = "q1"),
      a.percentage = 80) ∧
    (∀ a ∈ demoDB.user_attempts.filter (fun a => a.user_id = "u1" ∧ a.quiz_set_id = "q1"),
      a.percentage ≤ 80) :=
  (getUserBestScoreForQuiz_spec demoDB "u1" "q1").2 80 (by decide)

/-! C8: the adapter login returns null on unknown email, digest mismatch or
    pending status, and the matched user otherwise. -/

/-- C8: adapter loginUser yields none when no user record carries the exact
    email, or when the stored digest differs from the digest of the supplied
    password, or when the matched user is pending; in the remaining case it
    yields the matched user. -/
theorem adapter_loginUser_cases (db : DB) (email password sessionId now : String) :
    (db.users.find? (fun r => r.email = email) = none →
      (DataServiceAdapter.loginUser db email password sessionId now).2 = none) ∧
    (∀ u, db.users.find? (fun r => r.email = email) = some u →
      ¬ hashPassword password = u.password_hash →
      (DataServiceAdapter.loginUser db email password sessionId now).2 = none) ∧
    (∀ u, db.users.find? (fun r => r.email = email) = some u →
      hashPassword password = u.password_hash → u.status = UserStatus.pending →
      (DataServiceAdapter.loginUser db email password sessionId now).2 = none) ∧
    (∀ u, db.users.find? (fun r => r.email = email) = some u →
      hashPassword password = u.password_hash → ¬ u.status = UserStatus.pending →
      (DataServiceAdapter.loginUser db email password sessionId now).2 = some (userView u)) := by
  refine ⟨?_, ?_, ?_, ?_⟩
  · intro hf
    simp [DataServiceAdapter.loginUser, LocalDatabaseService.loginUser, hf]
  · intro u hf hne
    simp [DataServiceAdapter.loginUser, LocalDatabaseService.loginUser, verifyPassword, hf, hne]
  · intro u hf he hp
    simp [DataServiceAdapter.loginUser, LocalDatabaseService.loginUser, verifyPassword,
          hf, he, userView, hp]
  · intro u hf he hp
    simp [DataServiceAdapter.loginUser, LocalDatabaseService.loginUser, verifyPassword,
          hf, he, userView, hp]

/-- Witness for C8 on the demo store: the active user u1 with matching email
    and password digest is returned by the adapter login. -/
theorem adapter_loginUser_cases_witness :
    (DataServiceAdapter.loginUser demoDB "alice@t1.example" "wel123" "s1"
        "2024-02-01T00:00:00.000Z").2
      = some (userView
          { id := "u1", name := "Alice", email := "alice@t1.example",
            password_hash := hashPassword "wel123", role := Role.user,
            tenant_id := some "t1", status := UserStatus.active,
            created_at := "2024-01-02T00:00:00.000Z" }) :=
  (adapter_loginUser_cases demoDB "alice@t1.example" "wel123" "s1"
      "2024-02-01T00:00:00.000Z").2.2.2
    { id := "u1", name := "Alice", email := "alice@t1.example",
      password_hash := hashPassword "wel123", role := Role.user,
      tenant_id := some "t1", status := UserStatus.active,
      created_at := "2024-01-02T00:00:00.000Z" }
    (by decide) rfl (by decide)

/-! C10: a pending user with the right password gets a null login result,
    yet the session table now holds that user. -/

/-- C10: when the email matches a pending user and the digest matches, the
    adapter login returns none even though the session table was replaced
    with a row for that user, so getCurrentUser afterwards returns the
    pending user. -/
theorem adapter_loginUser_pending_session (db : DB) (email password sessionId now : String)
    (u : UserRecord) (hf : db.users.find? (fun r => r.email = email) = some u)
    (hpw : hashPassword password = u.password_hash)
    (hp : u.status = UserStatus.pending)
    (hnd : (db.users.map UserRecord.id).Nodup) :
    (DataServiceAdapter.loginUser db email password sessionId now).2 = none ∧
    (DataServiceAdapter.loginUser db email password sessionId now).1.user_sessions
      = [{ id := sessionId, user_id := u.id }] ∧
    LocalDatabaseService.getCurrentUser
        (DataServiceAdapter.loginUser db email password sessionId now).1
      = some (userView u) := by
  have hmem : u ∈ db.users := List.mem_of_find?_eq_some hf
  have hlook : lookupBy UserRecord.id u.id db.users = some u :=
    lookupBy_eq_of_mem UserRecord.id hnd hmem
  refine ⟨?_, ?_, ?_⟩
  · simp [DataServiceAdapter.loginUser, LocalDatabaseService.loginUser, verifyPassword,
          hf, hpw, userView, hp]
  · simp [DataServiceAdapter.loginUser, LocalDatabaseService.loginUser, verifyPassword,
          hf, hpw, userView, hp, saveDatabase]
  · simp [DataServiceAdapter.loginUser, LocalDatabaseService.loginUser, verifyPassword,
          hf, hpw, userView, hp, saveDatabase, LocalDatabaseService.getCurrentUser, hlook]

/-- Witness for C10 on the demo store: logging in the pending admin u2 with
    the right password returns none but installs a session for u2, and
    getCurrentUser then reports u2. -/
theorem adapter_loginUser_pending_session_witness :
    (DataServiceAdapter.loginUser demoDB "bob@t2.example" "wel123" "s2"
        "2024-02-01T00:00:00.000Z").2 = none ∧
    (DataServiceAdapter.loginUser demoDB "bob@t2.example" "wel123" "s2"
        "2024-02-01T00:00:00.000Z").1.user_sessions
      = [{ id := "s2", user_id := "u2" }] ∧
    LocalDatabaseService.getCurrentUser
        (DataServiceAdapter.loginUser demoDB "bob@t2.example" "wel123" "s2"
          "2024-02-01T00:00:00.000Z").1
      = some (userView
          { id := "u2", name := "Bob", email := "bob@t2.example",
            password_hash := hashPassword "wel123", role := Role.admin,
            tenant_id := some "t2", status := UserStatus.pending,
            created_at := "2024-01-03T00:00:00.000Z" }) :=
  adapter_loginUser_pending_session demoDB "bob@t2.example" "wel123" "s2"
    "2024-02-01T00:00:00.000Z"
    { id := "u2", name := "Bob", email := "bob@t2.example",
      password_hash := hashPassword "wel123", role := Role.admin,
      tenant_id := some "t2", status := UserStatus.pending,
      created_at := "2024-01-03T00:00:00.000Z" }
    (by decide) rfl rfl (by decide)

/-! C5: role and tenant validation on adapter createUser. The validation
    uses JS truthiness, so an empty-string tenant id slips past the
    product-admin guard. -/

/-- Counterexample for C5 as stated: with role product-admin and the
    supplied tenant id being the empty string, creation does not fail and
    the created user is a product-admin whose tenantId is present. -/
theorem adapter_createUser_empty_tenant_cex :
    Except.map (fun p => (p.2.role, p.2.tenantId))
        (DataServiceAdapter.createUser demoDB "Eve" "eve@new.example" "pw9"
          Role.productAdmin (some "") "u9" "2024-02-01T00:00:00.000Z")
      = Except.ok (Role.productAdmin, some "") := by
  rfl

/-- C5 amended: createUser fails whenever role is product-admin and a
    non-empty tenantId is supplied, or the role is admin or user and the
    tenantId is absent or empty (JS truthiness); consequently every user it
    creates satisfies: product-admin implies the tenantId is absent or the
    empty string, and admin or user implies a non-empty tenantId is
    present. -/
theorem adapter_createUser_spec (db : DB) (name email password : String) (role : Role)
    (tenantId : Option String) (userId now : String) :
    (role = Role.productAdmin → ∀ s, tenantId = some s → ¬ s = "" →
      DataServiceAdapter.createUser db name email password role tenantId userId now
        = Except.error "Product admin cannot belong to a tenant") ∧
    ((role = Role.admin ∨ role = Role.user) → (tenantId = none ∨ tenantId = some "") →
      DataServiceAdapter.createUser db name email password role tenantId userId now
        = Except.error "Admin and user roles must belong to a tenant") ∧
    (∀ db2 u, DataServiceAdapter.createUser db name email password role tenantId userId now
        = Except.ok (db2, u) →
      (u.role = Role.productAdmin → (u.tenantId = none ∨ u.tenantId = some "")) ∧
      ((u.role = Role.admin ∨ u.role = Role.user) →
        ∃ s, u.tenantId = some s ∧ ¬ s = "")) := by
  refine ⟨?_, ?_, ?_⟩
  · intro hr s hs hne
    subst hr
    subst hs
    simp [DataServiceAdapter.createUser, DataServiceAdapter.truthy, hne]
  · intro hr ht
    have htr : DataServiceAdapter.truthy tenantId = false := by
      rcases ht with h | h <;> simp [DataServiceAdapter.truthy, h]
    rcases hr with h | h <;> subst h <;>
      simp [DataServiceAdapter.createUser, htr]
  · intro db2 u hok
    by_cases h1 : role = Role.productAdmin ∧ DataServiceAdapter.truthy tenantId = true
    · simp [DataServiceAdapter.createUser, h1] at hok
    · by_cases h2 : (role = Role.admin ∨ role = Role.user) ∧
          DataServiceAdapter.truthy tenantId = false
      · simp [DataServiceAdapter.createUser, h1, h2] at hok
      · have hok2 : LocalDatabaseService.createUser db name email password role tenantId
            userId now = Except.ok (db2, u) := by
          simpa [DataServiceAdapter.createUser, h1, h2] using hok
        unfold LocalDatabaseService.createUser at hok2
        by_cases h3 : (db.users.find? (fun v => v.email = email)).isSome = true
        · simp [h3] at hok2
        · simp [h3] at hok2
          obtain ⟨hdb2, huser⟩ := hok2
          subst huser
          constructor
          · intro hrole
            have hpa : role = Role.productAdmin := hrole
            have hnt : ¬ DataServiceAdapter.truthy tenantId = true := by
              intro htr
              exact h1 ⟨hpa, htr⟩
            show tenantId = none ∨ tenantId = some ""
            cases tenantId with
            | none => exact Or.inl rfl
            | some s =>
              right
              have hse : s = "" := by
                by_contra hne
                exact hnt (by simp [DataServiceAdapter.truthy, hne])
              rw [hse]
          · intro hrole
            have hau : role = Role.admin ∨ role = Role.user := hrole
            have htr : DataServiceAdapter.truthy tenantId = true := by
              cases hb : DataServiceAdapter.truthy tenantId with
              | false => exact absurd ⟨hau, hb⟩ h2
              | true => rfl
            show ∃ s, tenantId = some s ∧ ¬ s = ""
            cases tenantId with
            | none => simp [DataServiceAdapter.truthy] at htr
            | some s =>
              refine ⟨s, rfl, ?_⟩
              simpa [DataServiceAdapter.truthy] using htr

/-- Witness for the amended C5: creating an admin with a non-empty tenant
    id succeeds and the created user carries that non-empty tenant id. -/
theorem adapter_createUser_spec_witness :
    ∃ s,
      ({ id := "u9", name := "Carol", email := "carol@new.example", role := Role.admin,
         tenantId := some "t1", status := UserStatus.active,
         createdAt := "2024-02-01T00:00:00.000Z" } : User).tenantId = some s ∧ ¬ s = "" := by
  have h := (adapter_createUser_spec demoDB "Carol" "carol@new.example" "pw9" Role.admin
      (some "t1") "u9" "2024-02-01T00:00:00.000Z").2.2 _
      { id := "u9", name := "Carol", email := "carol@new.example", role := Role.admin,
        tenantId := some "t1", status := UserStatus.active,
        createdAt := "2024-02-01T00:00:00.000Z" } rfl
  exact h.2 (Or.inl rfl)

/-! C9: quiz-set attribution of saveTestResult. A supplied but empty quiz
    set id is falsy and falls through to the fallback chain. -/

/-- Counterexample for C9 as stated: the caller supplies the (empty) quiz
    set id, yet the stored attempt row carries the literal default
    instead. -/
theorem saveTestResult_empty_id_cex :
    c9Input.quizSetId = some "" ∧
    Option.map UserAttemptRecord.quiz_set_id
        (lookupBy UserAttemptRecord.id "a9"
          (LocalDatabaseService.saveTestResult demoDB c9Input "a9"
            "2024-02-01T00:00:00.000Z").1.user_attempts)
      = some "default" := by
  exact ⟨rfl, by rfl⟩

/-- C9 amended: the stored attempt takes the caller-supplied quizSetId when
    a non-empty one is supplied (an empty string is falsy and treated as
    absent); otherwise, for quizType default it takes the id of the first
    published quiz set in iteration order when one exists; otherwise the
    literal string default. -/
theorem saveTestResult_attribution (db : DB) (r : TestResultInput) (attemptId now : String) :
    ∃ rec, lookupBy UserAttemptRecord.id attemptId
        (LocalDatabaseService.saveTestResult db r attemptId now).1.user_attempts = some rec ∧
      (∀ s, r.quizSetId = some s → ¬ s = "" → rec.quiz_set_id = s) ∧
      ((r.quizSetId = none ∨ r.quizSetId = some "") → r.quizType = "default" →
        ∀ q, (db.quiz_sets.filter (fun x => x.is_published)).head? = some q →
          rec.quiz_set_id = q.id) ∧
      ((r.quizSetId = none ∨ r.quizSetId = some "") →
        (¬ r.quizType = "default" ∨ db.quiz_sets.filter (fun x => x.is_published) = []) →
        rec.quiz_set_id = "default") := by
  refine ⟨LocalDatabaseService.newAttemptRecord db r attemptId, ?_, ?_, ?_, ?_⟩
  · show lookupBy UserAttemptRecord.id attemptId
        (upsertBy UserAttemptRecord.id (LocalDatabaseService.newAttemptRecord db r attemptId)
          db.user_attempts) = _
    have hid : (LocalDatabaseService.newAttemptRecord db r attemptId).id = attemptId := rfl
    rw [← hid]
    exact lookupBy_upsert_self UserAttemptRecord.id _ db.user_attempts
  · intro s hs hne
    simp [LocalDatabaseService.newAttemptRecord, LocalDatabaseService.resolveQuizSetId,
          hs, hne]
  · intro h hqt q hq
    rcases h with h | h <;>
      simp [LocalDatabaseService.newAttemptRecord, LocalDatabaseService.resolveQuizSetId,
            h, hqt, hq]
  · intro h hcase
    rcases h with h | h <;> rcases hcase with hc | hc <;>
      simp [LocalDatabaseService.newAttemptRecord, LocalDatabaseService.resolveQuizSetId,
            h, hc]

/-- Witness for the amended C9: a default-type attempt with no supplied id
    is attributed to q1, the first published quiz set of the demo store. -/
theorem saveTestResult_attribution_witness :
    ∃ rec, lookupBy UserAttemptRecord.id "a9"
        (LocalDatabaseService.saveTestResult demoDB c9DefaultInput "a9"
          "2024-02-01T00:00:00.000Z").1.user_attempts = some rec ∧
      rec.quiz_set_id = "q1" := by
  obtain ⟨rec, hrec, hsup, hdef, hfall⟩ :=
    saveTestResult_attribution demoDB c9DefaultInput "a9" "2024-02-01T00:00:00.000Z"
  exact ⟨rec, hrec, hdef (Or.inl rfl) rfl _ rfl⟩

/-! Effect lemmas for updateUserStatus, updateTenant and the
    activate-pending-users fold of approveTenant. -/

theorem updateUserStatus_users (d : DB) (uid : String) (st : UserStatus) (now : String) :
    (LocalDatabaseService.updateUserStatus d uid st now).1.users
      = d.users.map (fun r => if r.id = uid then { r with status := st } else r) := by
  unfold LocalDatabaseService.updateUserStatus
  cases hl : lookupBy UserRecord.id uid d.users with
  | none =>
    have hall := (lookupBy_none_iff UserRecord.id uid d.users).mp hl
    have hpt : ∀ r ∈ d.users,
        (fun r => if r.id = uid then { r with status := st } else r) r = (fun r => r) r := by
      intro r hr
      simp only []
      rw [if_neg (hall r hr)]
    show d.users = _
    rw [List.map_congr_left hpt, List.map_id']
  | some _ => simp [saveDatabase]

theorem updateUserStatus_tenants (d : DB) (uid : String) (st : UserStatus) (now : String) :
    (LocalDatabaseService.updateUserStatus d uid st now).1.tenants = d.tenants := by
  unfold LocalDatabaseService.updateUserStatus
  cases lookupBy UserRecord.id uid d.users <;> simp [saveDatabase]

theorem activate_fold_tenants (now : String) (L : List User) (d : DB) :
    (L.foldl (fun d user => if user.status = UserStatus.pending then
        (LocalDatabaseService.updateUserStatus d user.id UserStatus.active now).1 else d)
      d).tenants = d.tenants := by
  induction L generalizing d with
  | nil => rfl
  | cons u L ih =>
    rw [List.foldl_cons, ih]
    by_cases h : u.status = UserStatus.pending
    · rw [if_pos h, updateUserStatus_tenants]
    · rw [if_neg h]

theorem activate_fold_users (now : String) (L : List User) (d : DB) :
    (L.foldl (fun d user => if user.status = UserStatus.pending then
        (LocalDatabaseService.updateUserStatus d user.id UserStatus.active now).1 else d)
      d).users
      = d.users.map (fun r =>
          if r.id ∈ (L.filter (fun u => u.status = UserStatus.pending)).map User.id
          then { r with status := UserStatus.active } else r) := by
  induction L generalizing d with
  | nil =>
    have hpt : ∀ r ∈ d.users,
        (fun r => if r.id ∈ (([] : List User).filter
            (fun u => u.status = UserStatus.pending)).map User.id
          then { r with status := UserStatus.active } else r) r = (fun r => r) r := by
      intro r hr
      simp
    show d.users = _
    rw [List.map_congr_left hpt, List.map_id']
  | cons u L ih =>
    rw [List.foldl_cons]
    by_cases h : u.status = UserStatus.pending
    · rw [if_pos h, ih, updateUserStatus_users, List.map_map]
      apply List.map_congr_left
      intro r hr
      by_cases hr1 : r.id = u.id <;>
        by_cases hmem :
          r.id ∈ (L.filter (fun u => u.status = UserStatus.pending)).map User.id <;>
        simp [Function.comp, List.filter_cons, h, hr1, hmem]
    · rw [if_neg h, ih]
      have hfe : (u :: L).filter (fun v => v.status = UserStatus.pending)
          = L.filter (fun v => v.status = UserStatus.pending) := by
        rw [List.filter_cons, if_neg (by simp [h])]
      rw [hfe]

theorem applyTenantUpdates_id (u : TenantUpdates) (r : TenantRecord) :
    (LocalDatabaseService.applyTenantUpdates u r).id = r.id := rfl

theorem updateTenant_users (db : DB) (id : String) (u : TenantUpdates) (now : String) :
    (LocalDatabaseService.updateTenant db id u now).1.users = db.users := by
  unfold LocalDatabaseService.updateTenant
  cases lookupBy TenantRecord.id id db.tenants <;> simp [saveDatabase]

theorem updateTenant_tenants (db : DB) (id : String) (u : TenantUpdates) (now : String)
    (t : TenantRecord) (h : lookupBy TenantRecord.id id db.tenants = some t) :
    (LocalDatabaseService.updateTenant db id u now).1.tenants
      = db.tenants.map (fun r =>
          if r.id = id then LocalDatabaseService.applyTenantUpdates u r else r) := by
  unfold LocalDatabaseService.updateTenant
  rw [h]
  simp [saveDatabase]

theorem updateTenant_snd (db : DB) (id : String) (u : TenantUpdates) (now : String)
    (t : TenantRecord) (h : lookupBy TenantRecord.id id db.tenants = some t) :
    (LocalDatabaseService.updateTenant db id u now).2
      = some (tenantView (LocalDatabaseService.applyTenantUpdates u t)) := by
  unfold LocalDatabaseService.updateTenant
  rw [h]
  show LocalDatabaseService.getTenant _ id = _
  unfold LocalDatabaseService.getTenant
  have hpres : ∀ r, TenantRecord.id
      ((fun r => if r.id = id then LocalDatabaseService.applyTenantUpdates u r else r) r)
      = TenantRecord.id r := by
    intro r
    show (if r.id = id then LocalDatabaseService.applyTenantUpdates u r else r).id = r.id
    by_cases hr : r.id = id
    · rw [if_pos hr, applyTenantUpdates_id]
    · rw [if_neg hr]
  show (lookupBy TenantRecord.id id (saveDatabase _ now).tenants).map tenantView = _
  have hsv : (saveDatabase
      { db with tenants := db.tenants.map (fun r =>
          if r.id = id then LocalDatabaseService.applyTenantUpdates u r else r) }
      now).tenants
      = db.tenants.map (fun r =>
          if r.id = id then LocalDatabaseService.applyTenantUpdates u r else r) := rfl
  rw [hsv, lookupBy_map_presv TenantRecord.id _ hpres, h]
  have hid : t.id = id := by
    have := List.find?_some h
    simpa [lookupBy] using this
  simp [hid]

theorem updateTenant_lookup (db : DB) (id : String) (u : TenantUpdates) (now : String)
    (t : TenantRecord) (h : lookupBy TenantRecord.id id db.tenants = some t) :
    lookupBy TenantRecord.id id (LocalDatabaseService.updateTenant db id u now).1.tenants
      = some (LocalDatabaseService.applyTenantUpdates u t) := by
  rw [updateTenant_tenants db id u now t h]
  have hpres : ∀ r, TenantRecord.id
      ((fun r => if r.id = id then LocalDatabaseService.applyTenantUpdates u r else r) r)
      = TenantRecord.id r := by
    intro r
    show (if r.id = id then LocalDatabaseService.applyTenantUpdates u r else r).id = r.id
    by_cases hr : r.id = id
    · rw [if_pos hr, applyTenantUpdates_id]
    · rw [if_neg hr]
  rw [lookupBy_map_presv TenantRecord.id _ hpres id db.tenants, h]
  have hid : t.id = id := by
    have h2 : db.tenants.find? (fun x => x.id = id) = some t := h
    have := List.find?_some h2
    simpa using this
  simp [hid]

theorem activatePendingUsers_tenants (db : DB) (tid now : String) :
    (DataServiceAdapter.activatePendingUsers db tid now).tenants = db.tenants :=
  activate_fold_tenants now (DataServiceAdapter.getUsersByTenant db tid) db

theorem activatePendingUsers_users (db : DB) (tid now : String) :
    (DataServiceAdapter.activatePendingUsers db tid now).users
      = db.users.map (fun r =>
          if r.id ∈ ((DataServiceAdapter.getUsersByTenant db tid).filter
              (fun u => u.status = UserStatus.pending)).map User.id
          then { r with status := UserStatus.active } else r) :=
  activate_fold_users now (DataServiceAdapter.getUsersByTenant db tid) db

/-! C2: the approve and reject transitions are not guarded by the current
    status, so approved and rejected are not terminal. -/

/-- Counterexample for C2: from the empty store, the adapter createTenant
    produces an approved tenant, and rejectTenant on that approved tenant
    succeeds and changes its status to rejected. -/
theorem tenant_terminal_status_cex :
    Option.map TenantRecord.status (lookupBy TenantRecord.id "tx" c2Db1.tenants)
      = some TenantStatus.approved ∧
    Except.map
        (fun p => (Option.map TenantRecord.status (lookupBy TenantRecord.id "tx" p.1.tenants),
          p.2))
        (DataServiceAdapter.rejectTenant c2Db1 "tx" "u0" "changed policy"
          "2024-03-02T00:00:00.000Z")
      = Except.ok (some TenantStatus.rejected, true) := by
  exact ⟨rfl, rfl⟩

/-- C2 amended: approveTenant and rejectTenant update the status of any
    existing tenant unconditionally, whatever its current status: reject
    always ends in rejected and approve always ends in approved, so
    approved and rejected are not terminal states. -/
theorem tenant_status_transitions_unguarded (db : DB) (tid actor reason now : String)
    (t : TenantRecord) (h : lookupBy TenantRecord.id tid db.tenants = some t) :
    DataServiceAdapter.rejectTenant db tid actor reason now
      = Except.ok ((LocalDatabaseService.updateTenant db tid
          (DataServiceAdapter.rejectUpdates actor reason now) now).1, true) ∧
    lookupBy TenantRecord.id tid
        (LocalDatabaseService.updateTenant db tid
          (DataServiceAdapter.rejectUpdates actor reason now) now).1.tenants
      = some
          { t with
            status := TenantStatus.rejected, is_active := false,
            approved_by := some actor, approved_at := some now,
            rejection_reason := some reason, updated_at := now } ∧
    (∃ db3, DataServiceAdapter.approveTenant db tid actor now = Except.ok (db3, true) ∧
      lookupBy TenantRecord.id tid db3.tenants
        = some
            { t with
              status := TenantStatus.approved, is_active := true,
              approved_by := some actor, approved_at := some now,
              updated_at := now }) := by
  have hget : LocalDatabaseService.getTenant db tid = some (tenantView t) := by
    unfold LocalDatabaseService.getTenant
    rw [h]
    rfl
  refine ⟨?_, ?_, ?_⟩
  · have hsnd := updateTenant_snd db tid (DataServiceAdapter.rejectUpdates actor reason now)
      now t h
    simp only [DataServiceAdapter.rejectTenant, hget, hsnd, Option.isSome_some]
  · exact updateTenant_lookup db tid (DataServiceAdapter.rejectUpdates actor reason now) now t h
  · have hsnd := updateTenant_snd db tid (DataServiceAdapter.approveUpdates actor now) now t h
    refine ⟨DataServiceAdapter.activatePendingUsers
        (LocalDatabaseService.updateTenant db tid
          (DataServiceAdapter.approveUpdates actor now) now).1 tid now, ?_, ?_⟩
    · simp only [DataServiceAdapter.approveTenant, hget, hsnd]
    · rw [activatePendingUsers_tenants]
      exact updateTenant_lookup db tid (DataServiceAdapter.approveUpdates actor now) now t h

/-- Witness for the amended C2: re-running reject on the already rejected
    demo tenant t3 still succeeds and leaves it rejected with the new actor
    stamp. -/
theorem tenant_status_transitions_unguarded_witness :
    Option.map TenantRecord.status (lookupBy TenantRecord.id "t3"
        (LocalDatabaseService.updateTenant demoDB "t3"
          (DataServiceAdapter.rejectUpdates "u0" "again" "2024-02-02T00:00:00.000Z")
          "2024-02-02T00:00:00.000Z").1.tenants)
      = some TenantStatus.rejected := by
  have h := tenant_status_transitions_unguarded demoDB "t3" "u0" "again"
    "2024-02-02T00:00:00.000Z" _ rfl
  rw [h.2.1]
  rfl

/-! C3: approving a pending tenant activates exactly the pending users of
    that tenant and errors on an unknown tenant id. -/

/-- C3: for a stored pending tenant, approveTenant succeeds with true, sets
    the tenant row to approved with the actor stamp, and rewrites the users
    table so that exactly the pending users of that tenant become active and
    every other user row is unchanged; on an unknown tenant id it fails with
    the not-found error. -/
theorem approveTenant_spec (db : DB) (tid actor now : String) :
    (∀ t, lookupBy TenantRecord.id tid db.tenants = some t →
      t.status = TenantStatus.pending →
      (db.users.map UserRecord.id).Nodup →
      ∃ db2, DataServiceAdapter.approveTenant db tid actor now = Except.ok (db2, true) ∧
        lookupBy TenantRecord.id tid db2.tenants
          = some
              { t with
                status := TenantStatus.approved, is_active := true,
                approved_by := some actor, approved_at := some now,
                updated_at := now } ∧
        db2.users = db.users.map (fun r =>
          if r.tenant_id = some tid ∧ r.status = UserStatus.pending
          then { r with status := UserStatus.active } else r)) ∧
    (lookupBy TenantRecord.id tid db.tenants = none →
      DataServiceAdapter.approveTenant db tid actor now
        = Except.error "Tenant not found") := by
  constructor
  · intro t h hpend hnd
    have hget : LocalDatabaseService.getTenant db tid = some (tenantView t) := by
      unfold LocalDatabaseService.getTenant
      rw [h]
      rfl
    have hsnd := updateTenant_snd db tid (DataServiceAdapter.approveUpdates actor now) now t h
    refine ⟨DataServiceAdapter.activatePendingUsers
        (LocalDatabaseService.updateTenant db tid
          (DataServiceAdapter.approveUpdates actor now) now).1 tid now, ?_, ?_, ?_⟩
    · simp only [DataServiceAdapter.approveTenant, hget, hsnd]
    · rw [activatePendingUsers_tenants]
      exact updateTenant_lookup db tid (DataServiceAdapter.approveUpdates actor now) now t h
    · rw [activatePendingUsers_users, updateTenant_users]
      apply List.map_congr_left
      intro r hr
      have e1 : DataServiceAdapter.getUsersByTenant
          (LocalDatabaseService.updateTenant db tid
            (DataServiceAdapter.approveUpdates actor now) now).1 tid
          = ((db.users.mergeSort LocalDatabaseService.userCreatedDesc).map userView).filter
              (fun user => user.tenantId = some tid) := by
        unfold DataServiceAdapter.getUsersByTenant LocalDatabaseService.getUsers
        rw [updateTenant_users]
      have hiff : r.id ∈ ((DataServiceAdapter.getUsersByTenant
            (LocalDatabaseService.updateTenant db tid
              (DataServiceAdapter.approveUpdates actor now) now).1 tid).filter
            (fun u => u.status = UserStatus.pending)).map User.id
          ↔ r.tenant_id = some tid ∧ r.status = UserStatus.pending := by
        rw [e1]
        constructor
        · intro hm
          obtain ⟨v, hv, hvid⟩ := List.mem_map.mp hm
          have hv1 := List.mem_filter.mp hv
          have hv2 := List.mem_filter.mp hv1.1
          obtain ⟨r2, hr2, hview⟩ := List.mem_map.mp hv2.1
          have hr2m : r2 ∈ db.users :=
            (List.mergeSort_perm db.users LocalDatabaseService.userCreatedDesc).mem_iff.mp hr2
          have hrid : r2.id = r.id := by
            rw [← hvid, ← hview]
            rfl
          have hr2r : r2 = r := key_inj_of_nodup UserRecord.id hnd hr2m hr hrid
          constructor
          · have := hv2.2
            rw [← hview] at this
            simpa [userView, hr2r] using this
          · have := hv1.2
            rw [← hview] at this
            simpa [userView, hr2r] using this
        · intro hc
          apply List.mem_map.mpr
          refine ⟨userView r, ?_, rfl⟩
          apply List.mem_filter.mpr
          constructor
          · apply List.mem_filter.mpr
            constructor
            · exact List.mem_map_of_mem userView
                ((List.mergeSort_perm db.users
                  LocalDatabaseService.userCreatedDesc).mem_iff.mpr hr)
            · simpa [userView] using hc.1
          · simpa [userView] using hc.2
      by_cases hc : r.tenant_id = some tid ∧ r.status = UserStatus.pending
      · rw [if_pos (hiff.mpr hc), if_pos hc]
      · rw [if_neg (fun hm => hc (hiff.mp hm)), if_neg hc]
  · intro h
    have hget : LocalDatabaseService.getTenant db tid = none := by
      unfold LocalDatabaseService.getTenant
      rw [h]
      rfl
    simp only [DataServiceAdapter.approveTenant, hget]

/-- Witness for C3 on the demo store: approving the pending tenant t2 turns
    it approved, activates its pending admin u2, and leaves the product
    admin u0 untouched. -/
theorem approveTenant_spec_witness :
    ∃ db2, DataServiceAdapter.approveTenant demoDB "t2" "u0" "2024-02-03T00:00:00.000Z"
        = Except.ok (db2, true) ∧
      Option.map TenantRecord.status (lookupBy TenantRecord.id "t2" db2.tenants)
        = some TenantStatus.approved ∧
      Option.map UserRecord.status (lookupBy UserRecord.id "u2" db2.users)
        = some UserStatus.active ∧
      lookupBy UserRecord.id "u0" db2.users
        = some { id := "u0", name := "Product Administrator", email := "pa@example.com",
                 password_hash := hashPassword "wel123", role := Role.productAdmin,
                 tenant_id := none, status := UserStatus.active,
                 created_at := "2024-01-01T00:00:00.000Z" } := by
  obtain ⟨db2, heq, hlook, husers⟩ :=
    (approveTenant_spec demoDB "t2" "u0" "2024-02-03T00:00:00.000Z").1 _ rfl rfl (by decide)
  refine ⟨db2, heq, ?_, ?_, ?_⟩
  · rw [hlook]
    rfl
  · rw [husers]
    rfl
  · rw [husers]
    rfl

/-! Effect lemmas for the two cascade loops of the adapter deleteTenant. -/

theorem deleteQuizSet_found (d : DB) (qid now : String)
    (h : (lookupBy QuizSetRecord.id qid d.quiz_sets).isSome = true) :
    (LocalDatabaseService.deleteQuizSet d qid now).1.quiz_sets
        = d.quiz_sets.filter (fun s => ¬ s.id = qid) ∧
    (LocalDatabaseService.deleteQuizSet d qid now).1.quiz_questions
        = d.quiz_questions.filter (fun q => ¬ q.quiz_set_id = qid) ∧
    (LocalDatabaseService.deleteQuizSet d qid now).1.user_attempts = d.user_attempts ∧
    (LocalDatabaseService.deleteQuizSet d qid now).1.users = d.users ∧
    (LocalDatabaseService.deleteQuizSet d qid now).1.tenants = d.tenants := by
  unfold LocalDatabaseService.deleteQuizSet
  cases hlk : lookupBy QuizSetRecord.id qid d.quiz_sets with
  | none => rw [hlk] at h; simp at h
  | some s => exact ⟨rfl, rfl, rfl, rfl, rfl⟩

theorem deleteQuizSets_fold (now : String) (L : List QuizSet) (d : DB)
    (hpres : ∀ v ∈ L, ∃ s ∈ d.quiz_sets, s.id = v.id)
    (hnd : (L.map QuizSet.id).Nodup) :
    (L.foldl (fun d quiz => (LocalDatabaseService.deleteQuizSet d quiz.id now).1) d).quiz_sets
        = d.quiz_sets.filter (fun s => ¬ s.id ∈ L.map QuizSet.id) ∧
    (L.foldl (fun d quiz =>
        (LocalDatabaseService.deleteQuizSet d quiz.id now).1) d).quiz_questions
        = d.quiz_questions.filter (fun q => ¬ q.quiz_set_id ∈ L.map QuizSet.id) ∧
    (L.foldl (fun d quiz =>
        (LocalDatabaseService.deleteQuizSet d quiz.id now).1) d).user_attempts
        = d.user_attempts ∧
    (L.foldl (fun d quiz => (LocalDatabaseService.deleteQuizSet d quiz.id now).1) d).users
        = d.users ∧
    (L.foldl (fun d quiz => (LocalDatabaseService.deleteQuizSet d quiz.id now).1) d).tenants
        = d.tenants := by
  induction L generalizing d with
  | nil =>
    refine ⟨?_, ?_, rfl, rfl, rfl⟩ <;> simp
  | cons v L ih =>
    rw [List.map_cons, List.nodup_cons] at hnd
    obtain ⟨s, hs, hsid⟩ := hpres v (List.mem_cons_self v L)
    have hf : (lookupBy QuizSetRecord.id v.id d.quiz_sets).isSome = true := by
      unfold lookupBy
      rw [List.find?_isSome]
      exact ⟨s, hs, by simp [hsid]⟩
    obtain ⟨h1, h2, h3, h4, h5⟩ := deleteQuizSet_found d v.id now hf
    simp only [List.foldl_cons]
    have hpres2 : ∀ w ∈ L,
        ∃ s2 ∈ (LocalDatabaseService.deleteQuizSet d v.id now).1.quiz_sets, s2.id = w.id := by
      intro w hw
      obtain ⟨s2, hs2, hs2id⟩ := hpres w (List.mem_cons.mpr (Or.inr hw))
      refine ⟨s2, ?_, hs2id⟩
      rw [h1]
      apply List.mem_filter.mpr
      refine ⟨hs2, ?_⟩
      have hvw : ¬ w.id = v.id := by
        intro hEq
        exact hnd.1 (hEq ▸ List.mem_map_of_mem QuizSet.id hw)
      simpa [hs2id] using hvw
    obtain ⟨g1, g2, g3, g4, g5⟩ :=
      ih ((LocalDatabaseService.deleteQuizSet d v.id now).1) hpres2 hnd.2
    refine ⟨?_, ?_, ?_, ?_, ?_⟩
    · rw [g1, h1, List.filter_filter]
      apply List.filter_congr
      intro x hx
      by_cases hv : x.id = v.id <;> by_cases hm : x.id ∈ L.map QuizSet.id <;>
        simp [hv, hm]
    · rw [g2, h2, List.filter_filter]
      apply List.filter_congr
      intro x hx
      by_cases hv : x.quiz_set_id = v.id <;>
        by_cases hm : x.quiz_set_id ∈ L.map QuizSet.id <;> simp [hv, hm]
    · rw [g3, h3]
    · rw [g4, h4]
    · rw [g5, h5]

theorem deleteTestResult_effect (d : DB) (rid now : String) :
    (LocalDatabaseService.deleteTestResult d rid now).1.user_attempts
        = d.user_attempts.filter (fun a => ¬ a.id = rid) ∧
    (LocalDatabaseService.deleteTestResult d rid now).1.quiz_sets = d.quiz_sets ∧
    (LocalDatabaseService.deleteTestResult d rid now).1.quiz_questions = d.quiz_questions ∧
    (LocalDatabaseService.deleteTestResult d rid now).1.users = d.users ∧
    (LocalDatabaseService.deleteTestResult d rid now).1.tenants = d.tenants := by
  unfold LocalDatabaseService.deleteTestResult
  cases hlk : lookupBy UserAttemptRecord.id rid d.user_attempts with
  | none =>
    refine ⟨?_, rfl, rfl, rfl, rfl⟩
    symm
    apply List.filter_eq_self.mpr
    intro a ha
    have := (lookupBy_none_iff UserAttemptRecord.id rid d.user_attempts).mp hlk a ha
    simpa using this
  | some s => exact ⟨rfl, rfl, rfl, rfl, rfl⟩

theorem deleteTestResults_fold (now : String) (L : List TestResult) (d : DB) :
    (L.foldl (fun d result =>
        (LocalDatabaseService.deleteTestResult d result.id now).1) d).user_attempts
        = d.user_attempts.filter (fun a => ¬ a.id ∈ L.map TestResult.id) ∧
    (L.foldl (fun d result =>
        (LocalDatabaseService.deleteTestResult d result.id now).1) d).quiz_sets
        = d.quiz_sets ∧
    (L.foldl (fun d result =>
        (LocalDatabaseService.deleteTestResult d result.id now).1) d).quiz_questions
        = d.quiz_questions ∧
    (L.foldl (fun d result =>
        (LocalDatabaseService.deleteTestResult d result.id now).1) d).users
        = d.users ∧
    (L.foldl (fun d result =>
        (LocalDatabaseService.deleteTestResult d result.id now).1) d).tenants
        = d.tenants := by
  induction L generalizing d with
  | nil => refine ⟨?_, rfl, rfl, rfl, rfl⟩; simp
  | cons v L ih =>
    simp only [List.foldl_cons]
    obtain ⟨h1, h2, h3, h4, h5⟩ := deleteTestResult_effect d v.id now
    obtain ⟨g1, g2, g3, g4, g5⟩ := ih ((LocalDatabaseService.deleteTestResult d v.id now).1)
    refine ⟨?_, ?_, ?_, ?_, ?_⟩
    · rw [g1, h1, List.filter_filter]
      apply List.filter_congr
      intro a ha
      by_cases hv : a.id = v.id <;> by_cases hm : a.id ∈ L.map TestResult.id <;>
        simp [hv, hm]
    · rw [g2, h2]
    · rw [g3, h3]
    · rw [g4, h4]
    · rw [g5, h5]

theorem getQuizSetById_of_mem (db : DB) (hnd : (db.quiz_sets.map QuizSetRecord.id).Nodup)
    (r : QuizSetRecord) (hr : r ∈ db.quiz_sets) :
    LocalDatabaseService.getQuizSetById db r.id
      = some
          { id := r.id, name := r.name, description := r.description,
            questions := ((db.quiz_questions.filter
                (fun q => q.quiz_set_id = r.id)).mergeSort
                LocalDatabaseService.questionOrderAsc).map questionView,
            isPublished := r.is_published, tenantId := r.tenant_id,
            createdBy := r.created_by, createdAt := r.created_at,
            updatedAt := r.updated_at } := by
  unfold LocalDatabaseService.getQuizSetById
  rw [lookupBy_eq_of_mem QuizSetRecord.id hnd hr]

theorem tenantQuizzes_map_id (db : DB) (tid : String)
    (hnd : (db.quiz_sets.map QuizSetRecord.id).Nodup) (hne : ¬ tid = "") :
    ((DataServiceAdapter.getQuizSetsByTenant db tid).map QuizSet.id).Perm
      ((db.quiz_sets.filter (fun s => s.tenant_id = some tid)).map QuizSetRecord.id) := by
  have e1 : DataServiceAdapter.getQuizSetsByTenant db tid
      = (LocalDatabaseService.getQuizSets db).filter
          (fun quiz => quiz.tenantId = some tid) := by
    unfold DataServiceAdapter.getQuizSetsByTenant DataServiceAdapter.getQuizSets
    rw [if_pos (by simp [DataServiceAdapter.truthy, hne])]
  have hsub : ∀ r ∈ db.quiz_sets.mergeSort LocalDatabaseService.quizUpdatedDesc,
      r ∈ db.quiz_sets := by
    intro r hr
    exact (List.mergeSort_perm db.quiz_sets LocalDatabaseService.quizUpdatedDesc).mem_iff.mp hr
  have e2 : LocalDatabaseService.getQuizSets db
      = (db.quiz_sets.mergeSort LocalDatabaseService.quizUpdatedDesc).map (fun r =>
          ({ id := r.id, name := r.name, description := r.description,
             questions := ((db.quiz_questions.filter
                 (fun q => q.quiz_set_id = r.id)).mergeSort
                 LocalDatabaseService.questionOrderAsc).map questionView,
             isPublished := r.is_published, tenantId := r.tenant_id,
             createdBy := r.created_by, createdAt := r.created_at,
             updatedAt := r.updated_at } : QuizSet)) := by
    unfold LocalDatabaseService.getQuizSets
    apply filterMap_eq_map_of_some
    intro r hr
    exact getQuizSetById_of_mem db hnd r (hsub r hr)
  rw [e1, e2, List.filter_map, List.map_map]
  have e3 : (db.quiz_sets.mergeSort LocalDatabaseService.quizUpdatedDesc).filter
        ((fun quiz => quiz.tenantId = some tid) ∘ (fun r =>
          ({ id := r.id, name := r.name, description := r.description,
             questions := ((db.quiz_questions.filter
                 (fun q => q.quiz_set_id = r.id)).mergeSort
                 LocalDatabaseService.questionOrderAsc).map questionView,
             isPublished := r.is_published, tenantId := r.tenant_id,
             createdBy := r.created_by, createdAt := r.created_at,
             updatedAt := r.updated_at } : QuizSet)))
      = (db.quiz_sets.mergeSort LocalDatabaseService.quizUpdatedDesc).filter
          (fun s => s.tenant_id = some tid) :=
    List.filter_congr (fun x _ => rfl)
  rw [e3]
  have e4 : ((db.quiz_sets.mergeSort LocalDatabaseService.quizUpdatedDesc).filter
        (fun s => s.tenant_id = some tid)).map
        (QuizSet.id ∘ (fun r =>
          ({ id := r.id, name := r.name, description := r.description,
             questions := ((db.quiz_questions.filter
                 (fun q => q.quiz_set_id = r.id)).mergeSort
                 LocalDatabaseService.questionOrderAsc).map questionView,
             isPublished := r.is_published, tenantId := r.tenant_id,
             createdBy := r.created_by, createdAt := r.created_at,
             updatedAt := r.updated_at } : QuizSet)))
      = ((db.quiz_sets.mergeSort LocalDatabaseService.quizUpdatedDesc).filter
          (fun s => s.tenant_id = some tid)).map QuizSetRecord.id :=
    List.map_congr_left (fun x _ => rfl)
  rw [e4]
  exact List.Perm.map QuizSetRecord.id
    (List.Perm.filter (fun s => decide (s.tenant_id = some tid))
      (List.mergeSort_perm db.quiz_sets LocalDatabaseService.quizUpdatedDesc))

theorem tenantResults_map_id (db : DB) (tid : String) (hne : ¬ tid = "") :
    ((DataServiceAdapter.getTestResultsByTenant db tid).map TestResult.id).Perm
      ((db.user_attempts.filter (fun a => a.tenant_id = some tid)).map
        UserAttemptRecord.id) := by
  have e1 : DataServiceAdapter.getTestResultsByTenant db tid
      = (LocalDatabaseService.getTestResults db).filter
          (fun result => result.tenantId = some tid) := by
    unfold DataServiceAdapter.getTestResultsByTenant DataServiceAdapter.getTestResults
    rw [if_pos (by simp [DataServiceAdapter.truthy, hne])]
  rw [e1]
  unfold LocalDatabaseService.getTestResults
  rw [List.filter_map, List.map_map]
  have e3 : (db.user_attempts.mergeSort LocalDatabaseService.attemptCompletedDesc).filter
        ((fun result => result.tenantId = some tid) ∘ LocalDatabaseService.attemptToResult db)
      = (db.user_attempts.mergeSort LocalDatabaseService.attemptCompletedDesc).filter
          (fun a => a.tenant_id = some tid) :=
    List.filter_congr (fun x _ => rfl)
  rw [e3]
  have e4 : ((db.user_attempts.mergeSort LocalDatabaseService.attemptCompletedDesc).filter
        (fun a => a.tenant_id = some tid)).map
        (TestResult.id ∘ LocalDatabaseService.attemptToResult db)
      = ((db.user_attempts.mergeSort LocalDatabaseService.attemptCompletedDesc).filter
          (fun a => a.tenant_id = some tid)).map UserAttemptRecord.id :=
    List.map_congr_left (fun x _ => rfl)
  rw [e4]
  exact List.Perm.map UserAttemptRecord.id
    (List.Perm.filter (fun a => decide (a.tenant_id = some tid))
      (List.mergeSort_perm db.user_attempts LocalDatabaseService.attemptCompletedDesc))

theorem getUsersByTenant_eq_nil (db : DB) (tid : String)
    (hno : ∀ r ∈ db.users, ¬ r.tenant_id = some tid) :
    DataServiceAdapter.getUsersByTenant db tid = [] := by
  unfold DataServiceAdapter.getUsersByTenant LocalDatabaseService.getUsers
  apply List.filter_eq_nil_iff.mpr
  intro v hv
  obtain ⟨r, hr, hview⟩ := List.mem_map.mp hv
  have hrm : r ∈ db.users :=
    (List.mergeSort_perm db.users LocalDatabaseService.userCreatedDesc).mem_iff.mp hr
  rw [← hview]
  simpa [userView] using hno r hrm

theorem getUsersByTenant_pos (db : DB) (tid : String) (r : UserRecord)
    (hr : r ∈ db.users) (ht : r.tenant_id = some tid) :
    0 < (DataServiceAdapter.getUsersByTenant db tid).length := by
  have hmem : userView r ∈ DataServiceAdapter.getUsersByTenant db tid := by
    unfold DataServiceAdapter.getUsersByTenant LocalDatabaseService.getUsers
    apply List.mem_filter.mpr
    constructor
    · exact List.mem_map_of_mem userView
        ((List.mergeSort_perm db.users LocalDatabaseService.userCreatedDesc).mem_iff.mpr hr)
    · simpa [userView] using ht
  exact List.length_pos.mpr (List.ne_nil_of_mem hmem)

/-! C1: tenant deletion is blocked while any user references the tenant,
    and otherwise cascades to quiz sets (with their questions) and test
    results before removing the tenant row. -/

/-- C1: when some user row references the tenant id, the adapter
    deleteTenant throws the tenant-has-users error before any mutation;
    when no user references it, the resulting state has exactly the quiz
    sets of other tenants, no question row of any quiz set of this tenant,
    exactly the attempts of other tenants, the tenant row removed, users
    untouched, and the returned flag reports whether the tenant row
    existed. -/
theorem adapter_deleteTenant_spec (db : DB) (tid now : String) :
    ((∃ r ∈ db.users, r.tenant_id = some tid) →
      DataServiceAdapter.deleteTenant db tid now
        = Except.error
            "Cannot delete tenant with existing users. Please remove all users first.") ∧
    ((∀ r ∈ db.users, ¬ r.tenant_id = some tid) → ¬ tid = "" →
      (db.quiz_sets.map QuizSetRecord.id).Nodup →
      (db.user_attempts.map UserAttemptRecord.id).Nodup →
      ∃ db3 res, DataServiceAdapter.deleteTenant db tid now = Except.ok (db3, res) ∧
        db3.users = db.users ∧
        db3.quiz_sets = db.quiz_sets.filter (fun s => ¬ s.tenant_id = some tid) ∧
        db3.quiz_questions = db.quiz_questions.filter
          (fun q => ¬ q.quiz_set_id ∈
            (db.quiz_sets.filter (fun s => s.tenant_id = some tid)).map QuizSetRecord.id) ∧
        db3.user_attempts = db.user_attempts.filter (fun a => ¬ a.tenant_id = some tid) ∧
        db3.tenants = db.tenants.filter (fun r => ¬ r.id = tid) ∧
        (res = true ↔ (lookupBy TenantRecord.id tid db.tenants).isSome = true)) := by
  constructor
  · rintro ⟨r, hr, ht⟩
    unfold DataServiceAdapter.deleteTenant
    rw [if_pos (getUsersByTenant_pos db tid r hr ht)]
  · intro hno hne hndq hnda
    have hU : DataServiceAdapter.getUsersByTenant db tid = [] :=
      getUsersByTenant_eq_nil db tid hno
    have hperm1 := tenantQuizzes_map_id db tid hndq hne
    have hpresL : ∀ v ∈ DataServiceAdapter.getQuizSetsByTenant db tid,
        ∃ s ∈ db.quiz_sets, s.id = v.id := by
      intro v hv
      have hvid : v.id ∈ (DataServiceAdapter.getQuizSetsByTenant db tid).map QuizSet.id :=
        List.mem_map_of_mem QuizSet.id hv
      obtain ⟨s, hsmem, hsid⟩ := List.mem_map.mp (hperm1.mem_iff.mp hvid)
      exact ⟨s, (List.mem_filter.mp hsmem).1, hsid⟩
    have hndL : ((DataServiceAdapter.getQuizSetsByTenant db tid).map QuizSet.id).Nodup := by
      have hsl : ((db.quiz_sets.filter (fun s => s.tenant_id = some tid)).map
          QuizSetRecord.id).Sublist (db.quiz_sets.map QuizSetRecord.id) :=
        List.Sublist.map QuizSetRecord.id (List.filter_sublist db.quiz_sets)
      exact hperm1.symm.nodup (List.Nodup.sublist hsl hndq)
    obtain ⟨q1, q2, q3, q4, q5⟩ :=
      deleteQuizSets_fold now (DataServiceAdapter.getQuizSetsByTenant db tid) db hpresL hndL
    have h1sets : (DataServiceAdapter.deleteTenantQuizzesStep db tid now).quiz_sets
        = db.quiz_sets.filter (fun s => ¬ s.tenant_id = some tid) := by
      have base : (DataServiceAdapter.deleteTenantQuizzesStep db tid now).quiz_sets
          = db.quiz_sets.filter (fun s =>
              ¬ s.id ∈ (DataServiceAdapter.getQuizSetsByTenant db tid).map QuizSet.id) := q1
      rw [base]
      apply List.filter_congr
      intro s hsmem
      have hiff : s.id ∈ (DataServiceAdapter.getQuizSetsByTenant db tid).map QuizSet.id
          ↔ s.tenant_id = some tid := by
        rw [hperm1.mem_iff]
        constructor
        · intro hm
          obtain ⟨s2, hs2, hs2id⟩ := List.mem_map.mp hm
          have hs2f := List.mem_filter.mp hs2
          have heq : s2 = s := key_inj_of_nodup QuizSetRecord.id hndq hs2f.1 hsmem hs2id
          rw [← heq]
          simpa using hs2f.2
        · intro htid
          exact List.mem_map_of_mem QuizSetRecord.id
            (List.mem_filter.mpr ⟨hsmem, by simpa using htid⟩)
      simp [hiff]
    have h1q : (DataServiceAdapter.deleteTenantQuizzesStep db tid now).quiz_questions
        = db.quiz_questions.filter
            (fun q => ¬ q.quiz_set_id ∈
              (db.quiz_sets.filter (fun s => s.tenant_id = some tid)).map
                QuizSetRecord.id) := by
      have base : (DataServiceAdapter.deleteTenantQuizzesStep db tid now).quiz_questions
          = db.quiz_questions.filter (fun q =>
              ¬ q.quiz_set_id ∈ (DataServiceAdapter.getQuizSetsByTenant db tid).map
                QuizSet.id) := q2
      rw [base]
      apply List.filter_congr
      intro q hq
      simp [hperm1.mem_iff]
    have h1att : (DataServiceAdapter.deleteTenantQuizzesStep db tid now).user_attempts
        = db.user_attempts := q3
    have h1users : (DataServiceAdapter.deleteTenantQuizzesStep db tid now).users
        = db.users := q4
    have h1tens : (DataServiceAdapter.deleteTenantQuizzesStep db tid now).tenants
        = db.tenants := q5
    have hperm2 := tenantResults_map_id (DataServiceAdapter.deleteTenantQuizzesStep db tid now)
      tid hne
    obtain ⟨w1, w2, w3, w4, w5⟩ := deleteTestResults_fold now
      (DataServiceAdapter.getTestResultsByTenant
        (DataServiceAdapter.deleteTenantQuizzesStep db tid now) tid)
      (DataServiceAdapter.deleteTenantQuizzesStep db tid now)
    have h2att : (DataServiceAdapter.deleteTenantResultsStep db tid now).user_attempts
        = db.user_attempts.filter (fun a => ¬ a.tenant_id = some tid) := by
      have base : (DataServiceAdapter.deleteTenantResultsStep db tid now).user_attempts
          = (DataServiceAdapter.deleteTenantQuizzesStep db tid now).user_attempts.filter
              (fun a => ¬ a.id ∈
                (DataServiceAdapter.getTestResultsByTenant
                  (DataServiceAdapter.deleteTenantQuizzesStep db tid now) tid).map
                  TestResult.id) := w1
      rw [base, h1att]
      apply List.filter_congr
      intro a ha
      have hiff2 : a.id ∈ (DataServiceAdapter.getTestResultsByTenant
            (DataServiceAdapter.deleteTenantQuizzesStep db tid now) tid).map TestResult.id
          ↔ a.tenant_id = some tid := by
        rw [hperm2.mem_iff, h1att]
        constructor
        · intro hm
          obtain ⟨a2, ha2, ha2id⟩ := List.mem_map.mp hm
          have ha2f := List.mem_filter.mp ha2
          have heq : a2 = a := key_inj_of_nodup UserAttemptRecord.id hnda ha2f.1 ha ha2id
          rw [← heq]
          simpa using ha2f.2
        · intro htid
          exact List.mem_map_of_mem UserAttemptRecord.id
            (List.mem_filter.mpr ⟨ha, by simpa using htid⟩)
      simp [hiff2]
    have h2sets : (DataServiceAdapter.deleteTenantResultsStep db tid now).quiz_sets
        = db.quiz_sets.filter (fun s => ¬ s.tenant_id = some tid) := by
      have base : (DataServiceAdapter.deleteTenantResultsStep db tid now).quiz_sets
          = (DataServiceAdapter.deleteTenantQuizzesStep db tid now).quiz_sets := w2
      rw [base, h1sets]
    have h2q : (DataServiceAdapter.deleteTenantResultsStep db tid now).quiz_questions
        = db.quiz_questions.filter
            (fun q => ¬ q.quiz_set_id ∈
              (db.quiz_sets.filter (fun s => s.tenant_id = some tid)).map
                QuizSetRecord.id) := by
      have base : (DataServiceAdapter.deleteTenantResultsStep db tid now).quiz_questions
          = (DataServiceAdapter.deleteTenantQuizzesStep db tid now).quiz_questions := w3
      rw [base, h1q]
    have h2users : (DataServiceAdapter.deleteTenantResultsStep db tid now).users
        = db.users := by
      have base : (DataServiceAdapter.deleteTenantResultsStep db tid now).users
          = (DataServiceAdapter.deleteTenantQuizzesStep db tid now).users := w4
      rw [base, h1users]
    have h2tens : (DataServiceAdapter.deleteTenantResultsStep db tid now).tenants
        = db.tenants := by
      have base : (DataServiceAdapter.deleteTenantResultsStep db tid now).tenants
          = (DataServiceAdapter.deleteTenantQuizzesStep db tid now).tenants := w5
      rw [base, h1tens]
    unfold DataServiceAdapter.deleteTenant
    rw [if_neg (by rw [hU]; simp)]
    have hlt_eq : lookupBy TenantRecord.id tid
        (DataServiceAdapter.deleteTenantResultsStep db tid now).tenants
        = lookupBy TenantRecord.id tid db.tenants := by
      rw [h2tens]
    cases hlt : lookupBy TenantRecord.id tid db.tenants with
    | none =>
      have hdel : LocalDatabaseService.deleteTenant
          (DataServiceAdapter.deleteTenantResultsStep db tid now) tid now
          = (DataServiceAdapter.deleteTenantResultsStep db tid now, false) := by
        unfold LocalDatabaseService.deleteTenant
        rw [hlt_eq, hlt]
      refine ⟨DataServiceAdapter.deleteTenantResultsStep db tid now, false, by rw [hdel],
        h2users, h2sets, h2q, h2att, ?_, by simp [hlt]⟩
      rw [h2tens]
      symm
      apply List.filter_eq_self.mpr
      intro r hr
      have := (lookupBy_none_iff TenantRecord.id tid db.tenants).mp hlt r hr
      simpa using this
    | some t =>
      have hdel : LocalDatabaseService.deleteTenant
          (DataServiceAdapter.deleteTenantResultsStep db tid now) tid now
          = (saveDatabase
              { DataServiceAdapter.deleteTenantResultsStep db tid now with
                tenants := (DataServiceAdapter.deleteTenantResultsStep db tid
                  now).tenants.filter (fun r => ¬ r.id = tid) } now,
             true) := by
        unfold LocalDatabaseService.deleteTenant
        rw [hlt_eq, hlt]
      refine ⟨_, true, by rw [hdel], ?_, ?_, ?_, ?_, ?_, by simp [hlt]⟩
      · show (saveDatabase _ now).users = _
        simpa [saveDatabase] using h2users
      · show (saveDatabase _ now).quiz_sets = _
        simpa [saveDatabase] using h2sets
      · show (saveDatabase _ now).quiz_questions = _
        simpa [saveDatabase] using h2q
      · show (saveDatabase _ now).user_attempts = _
        simpa [saveDatabase] using h2att
      · show (saveDatabase _ now).tenants = _
        simp only [saveDatabase]
        rw [h2tens]

/-- Witness for C1 on the demo store: deleting the user-free tenant t4
    removes its quiz set q4, the question of q4, the orphan attempt of t4
    and the tenant row, and touches nothing else. -/
theorem adapter_deleteTenant_spec_witness :
    ∃ db3 res, DataServiceAdapter.deleteTenant demoDB "t4" "2024-02-05T00:00:00.000Z"
        = Except.ok (db3, res) ∧
      db3.users = demoDB.users ∧
      db3.quiz_sets = demoDB.quiz_sets.filter (fun s => ¬ s.tenant_id = some "t4") ∧
      db3.quiz_questions = demoDB.quiz_questions.filter
        (fun q => ¬ q.quiz_set_id ∈
          (demoDB.quiz_sets.filter (fun s => s.tenant_id = some "t4")).map
            QuizSetRecord.id) ∧
      db3.user_attempts = demoDB.user_attempts.filter
        (fun a => ¬ a.tenant_id = some "t4") ∧
      db3.tenants = demoDB.tenants.filter (fun r => ¬ r.id = "t4") ∧
      (res = true ↔ (lookupBy TenantRecord.id "t4" demoDB.tenants).isSome = true) :=
  (adapter_deleteTenant_spec demoDB "t4" "2024-02-05T00:00:00.000Z").2
    (by decide) (by decide) (by decide) (by decide)

end QuizApp
